import Mathlib

/-!  Shallow embedding of the Rize MCP bridge (an HTTP/GraphQL client in
`rize_client.py` plus a tool dispatcher in `server_simple.py`).

Python values that flow through the bridge are modelled by `Json`
(ints only — floats are outside the modelled domain), Python exceptions by
`Except String` carrying `str(e)`, and the network by an oracle mapping each
outbound request to a transport outcome.  `datetime` values are modelled as
microseconds on an unbounded integer timeline (Python's year 1–9999 bound and
`OverflowError` are not modelled); timezone-aware inputs are outside the
modelled input domain of `datetime.fromisoformat`. -/

/-- Python values: `None`, booleans, integers, strings, lists and dicts
(dicts as key-ordered association lists with unique keys). -/
inductive Json where
  | null : Json
  | bool : Bool → Json
  | num : Int → Json
  | str : String → Json
  | arr : List Json → Json
  | obj : List (String × Json) → Json
deriving Repr

/-- First-match lookup in an association list; on an actual Python dict keys
are unique, so this is dict lookup. -/
def jfind (fs : List (String × Json)) (k : String) : Option Json :=
  match fs with
  | [] => none
  | (k', v) :: rest => if k' = k then some v else jfind rest k

/-- Python truthiness of a value (`if x:`). -/
def Json.truthy : Json → Bool
  | .null => false
  | .bool b => b
  | .num n => n != 0
  | .str s => s != ""
  | .arr xs => !xs.isEmpty
  | .obj fs => !fs.isEmpty

mutual

/-- Python `==` between modelled values (order-sensitive on dicts; the code
only ever compares strings with strings through this). -/
def Json.beq : Json → Json → Bool
  | .null, .null => true
  | .bool a, .bool b => a == b
  | .num a, .num b => a == b
  | .str a, .str b => a == b
  | .arr a, .arr b => Json.beqList a b
  | .obj a, .obj b => Json.beqFields a b
  | _, _ => false

/-- Elementwise Python `==` on lists. -/
def Json.beqList : List Json → List Json → Bool
  | [], [] => true
  | a :: as, b :: bs => Json.beq a b && Json.beqList as bs
  | _, _ => false

/-- Entrywise Python `==` on dict items. -/
def Json.beqFields : List (String × Json) → List (String × Json) → Bool
  | [], [] => true
  | (k, v) :: as, (k', v') :: bs => k == k' && Json.beq v v' && Json.beqFields as bs
  | _, _ => false

end

/-- The Python type name of a value, used in exception messages. -/
def Json.pyTypeName : Json → String
  | .null => "NoneType"
  | .bool _ => "bool"
  | .num _ => "int"
  | .str _ => "str"
  | .arr _ => "list"
  | .obj _ => "dict"

/-- `d.get(k, default)`: dict lookup with default; any other receiver raises
`AttributeError` (message approximates CPython's text). -/
def Json.get (j : Json) (k : String) (d : Json) : Except String Json :=
  match j with
  | .obj fs => .ok ((jfind fs k).getD d)
  | _ => .error ("\x27" ++ j.pyTypeName ++ "\x27 object has no attribute \x27get\x27")

/-- `d[k]` with a string key: dict lookup raising `KeyError` (whose `str` is
the repr of the key), `TypeError` on other receivers. -/
def Json.item (j : Json) (k : String) : Except String Json :=
  match j with
  | .obj fs =>
      match jfind fs k with
      | some v => .ok v
      | none => .error ("\x27" ++ k ++ "\x27")
  | .arr _ => .error ("list indices must be integers or slices, not str")
  | .str _ => .error ("string indices must be integers")
  | _ => .error ("\x27" ++ j.pyTypeName ++ "\x27 object is not subscriptable")

/-- `for x in j`: lists yield elements, dicts yield their keys, strings yield
their one-character substrings; other values raise `TypeError`. -/
def Json.iter : Json → Except String (List Json)
  | .arr xs => .ok xs
  | .obj fs => .ok (fs.map (fun kv => Json.str kv.1))
  | .str s => .ok (s.data.map (fun c => Json.str (String.singleton c)))
  | j => .error ("\x27" ++ j.pyTypeName ++ "\x27 object is not iterable")

/-- Boolean substring test on character lists (for Python `sub in s`). -/
def charsStarts : List Char → List Char → Bool
  | [], _ => true
  | _ :: _, [] => false
  | a :: as, b :: bs => a == b && charsStarts as bs

/-- Substring occurrence test on character lists. -/
def charsIn (needle hay : List Char) : Bool :=
  match hay with
  | [] => needle.isEmpty
  | _ :: t => charsStarts needle hay || charsIn needle t

/-- `k in j`: key test on dicts, membership (Python `==`) on lists, substring
test on strings; `TypeError` otherwise. -/
def Json.hasKeyE (j : Json) (k : String) : Except String Bool :=
  match j with
  | .obj fs => .ok ((jfind fs k).isSome)
  | .arr xs => .ok (xs.any (fun x => Json.beq x (Json.str k)))
  | .str s => .ok (charsIn k.data s.data)
  | _ => .error ("argument of type \x27" ++ j.pyTypeName ++ "\x27 is not iterable")

/-- One escaped character of a Python string repr quoted by `q`. -/
def pyEscChar (q : Char) (c : Char) : String :=
  if c = '\\' then "\\\\"
  else if c = q then "\\" ++ String.singleton q
  else if c = '\n' then "\\n"
  else if c = '\r' then "\\r"
  else if c = '\t' then "\\t"
  else String.singleton c

/-- Python `repr` of a string: single-quoted unless the string contains a
single quote and no double quote (non-printables beyond `\n`, `\r`, `\t` are
outside the modelled domain). -/
def pyReprStr (s : String) : String :=
  let sq : Char := Char.ofNat 39
  let dq : Char := Char.ofNat 34
  let q := if s.data.contains sq && !(s.data.contains dq) then dq else sq
  String.singleton q ++ String.join (s.data.map (pyEscChar q)) ++ String.singleton q

mutual

/-- Python `repr` of a modelled value. -/
def Json.pyRepr : Json → String
  | .null => "None"
  | .bool true => "True"
  | .bool false => "False"
  | .num n => toString n
  | .str s => pyReprStr s
  | .arr xs => "[" ++ Json.pyReprList xs ++ "]"
  | .obj fs => "\x7b" ++ Json.pyReprFields fs ++ "\x7d"

/-- Comma-joined reprs of list elements. -/
def Json.pyReprList : List Json → String
  | [] => ""
  | [x] => Json.pyRepr x
  | x :: xs => Json.pyRepr x ++ ", " ++ Json.pyReprList xs

/-- Comma-joined `key: value` reprs of dict items. -/
def Json.pyReprFields : List (String × Json) → String
  | [] => ""
  | [(k, v)] => pyReprStr k ++ ": " ++ Json.pyRepr v
  | (k, v) :: fs => pyReprStr k ++ ": " ++ Json.pyRepr v ++ ", " ++ Json.pyReprFields fs

end

/-- Python `str()` of a modelled value (`f"{x}"`): identity on strings,
`repr` otherwise. -/
def Json.pyStr : Json → String
  | .str s => s
  | j => Json.pyRepr j

/-- `s.rstrip(cs)`: drop from the right every character in `cs`. -/
def pyRstrip (s : String) (cs : List Char) : String :=
  ⟨(s.data.reverse.dropWhile (fun c => cs.contains c)).reverse⟩

/-- Python whitespace stripped by no-argument `str.strip`. -/
def pyWs : List Char := [' ', '\t', '\n', '\r', Char.ofNat 11, Char.ofNat 12]

/-- `s.strip()`: drop whitespace from both ends. -/
def pyStrip (s : String) : String :=
  ⟨((s.data.dropWhile (fun c => pyWs.contains c)).reverse.dropWhile
      (fun c => pyWs.contains c)).reverse⟩

/-- `s` starts with `p`. -/
def strStarts (s p : String) : Prop := ∃ r, s = p ++ r

/-- `sub` occurs inside `s`. -/
def strContains (s sub : String) : Prop := ∃ l r, s = l ++ (sub ++ r)

theorem strStarts_append (p r : String) : strStarts (p ++ r) p := ⟨r, rfl⟩

theorem strStarts_of_eq {s p r : String} (h : s = p ++ r) : strStarts s p := ⟨r, h⟩

example : Json.truthy (Json.str "") = false := by decide
example : (Json.obj [("a", Json.num 1)]).get ("a") Json.null = .ok (Json.num 1) := rfl
example : (Json.str "some errors here").hasKeyE ("errors") = .ok true := rfl
example : pyRstrip ("GraphQL: a; ") ([';', ' ']) = "GraphQL: a" := rfl
example : pyStrip ("  ab \n") = "ab" := rfl
example : (Json.arr [Json.str "x", Json.num 3]).pyStr = "[\x27x\x27, 3]" := rfl

/-- Microseconds per day. -/
def usPerDay : Int := 86400000000

/-- Microseconds per minute (`timedelta(minutes=1)`). -/
def usPerMinute : Int := 60000000

/-- Gregorian leap-year test (`calendar.isleap`, as used by `datetime`). -/
def isLeap (y : Nat) : Bool := y % 4 = 0 && (y % 100 ≠ 0 || y % 400 = 0)

/-- Days in a month of the proleptic Gregorian calendar. -/
def daysInMonth (y m : Nat) : Nat :=
  if m = 2 then (if isLeap y then 29 else 28)
  else if m = 4 ∨ m = 6 ∨ m = 9 ∨ m = 11 then 30
  else 31

/-- Days from 1970-01-01 to civil date `y-m-d` (proleptic Gregorian; the
standard days-from-civil computation `datetime.toordinal` is built on). -/
def daysFromCivil (y m d : Nat) : Int :=
  let y' : Int := if m ≤ 2 then (y : Int) - 1 else (y : Int)
  let era : Int := y' / 400
  let yoe : Int := y' - era * 400
  let mp : Int := if m ≤ 2 then (m : Int) + 9 else (m : Int) - 3
  let doy : Int := (153 * mp + 2) / 5 + (d : Int) - 1
  let doe : Int := yoe * 365 + yoe / 4 - yoe / 100 + doy
  era * 146097 + doe - 719468

/-- Civil date from days since 1970-01-01 (inverse of `daysFromCivil` on the
modelled year range). -/
def civilFromDays (z0 : Int) : Nat × Nat × Nat :=
  let z : Int := z0 + 719468
  let era : Int := z / 146097
  let doe : Int := z - era * 146097
  let yoe : Int := (doe - doe / 1460 + doe / 36524 - doe / 146096) / 365
  let y : Int := yoe + era * 400
  let doy : Int := doe - (365 * yoe + yoe / 4 - yoe / 100)
  let mp : Int := (5 * doy + 2) / 153
  let d : Int := doy - (153 * mp + 2) / 5 + 1
  let m : Int := if mp < 10 then mp + 3 else mp - 9
  ((y + (if m ≤ 2 then 1 else 0)).toNat, m.toNat, d.toNat)

/-- Timeline value (microseconds since 1970-01-01T00:00:00) of a naive
calendar datetime. -/
def toTimeline (y m d h mi s us : Nat) : Int :=
  (daysFromCivil y m d * 86400
    + (h : Int) * 3600 + (mi : Int) * 60 + (s : Int)) * 1000000 + (us : Int)

/-- The decimal digit character for `k < 10`. -/
def digitChar (k : Nat) : Char := Char.ofNat (48 + k)

/-- Two right-aligned zero-padded decimal digits (`%02d` for values < 100). -/
def pad2 (n : Nat) : List Char := [digitChar (n / 10), digitChar (n % 10)]

/-- Four zero-padded decimal digits (`%04d` for values < 10000). -/
def pad4 (n : Nat) : List Char :=
  [digitChar (n / 1000), digitChar (n / 100 % 10), digitChar (n / 10 % 10), digitChar (n % 10)]

/-- Six zero-padded decimal digits (`%06d` for values < 1000000). -/
def pad6 (n : Nat) : List Char :=
  [digitChar (n / 100000), digitChar (n / 10000 % 10), digitChar (n / 1000 % 10),
   digitChar (n / 100 % 10), digitChar (n / 10 % 10), digitChar (n % 10)]

/-- `datetime.isoformat()` of a timeline value: `YYYY-MM-DDTHH:MM:SS`, with
`.ffffff` appended when the microsecond field is nonzero. -/
def pyIsoformat (t : Int) : String :=
  let days := Int.fdiv t usPerDay
  let rem := (Int.fmod t usPerDay).toNat
  let us := rem % 1000000
  let secs := rem / 1000000
  let ymd := civilFromDays days
  ⟨pad4 ymd.1 ++ '-' :: pad2 ymd.2.1 ++ '-' :: pad2 ymd.2.2
    ++ 'T' :: pad2 (secs / 3600) ++ ':' :: pad2 (secs / 60 % 60) ++ ':' :: pad2 (secs % 60)
    ++ (if us = 0 then [] else '.' :: pad6 us)⟩

example : daysFromCivil 1970 1 1 = 0 := rfl
example : civilFromDays 0 = (1970, 1, 1) := rfl
example : civilFromDays (daysFromCivil 2024 7 21) = (2024, 7, 21) := rfl
example : civilFromDays (daysFromCivil 1 1 1) = (1, 1, 1) := rfl
example : civilFromDays (daysFromCivil 9999 12 31) = (9999, 12, 31) := rfl
example : pyIsoformat (toTimeline 2024 7 21 9 0 0 0) = "2024-07-21T09:00:00" := rfl
example : pyIsoformat (toTimeline 2025 2 28 23 59 59 123456) = "2025-02-28T23:59:59.123456" := rfl
example : pyIsoformat (toTimeline 1969 12 31 23 30 0 0) = "1969-12-31T23:30:00" := rfl

/-- Greedy span of decimal digits at the head of a character list. -/
def spanDigits : List Char → List Char × List Char
  | [] => ([], [])
  | c :: cs =>
      if c.isDigit then
        let p := spanDigits cs
        (c :: p.1, p.2)
      else ([], c :: cs)

/-- Numeric value of a list of decimal digit characters. -/
def natOfDigits (ds : List Char) : Nat :=
  ds.foldl (fun a c => a * 10 + (c.toNat - 48)) 0

/-- `strptime`'s `%Y` field: exactly four digits. -/
def pFix4 (cs : List Char) : Option (Nat × List Char) :=
  match spanDigits cs with
  | (ds, rest) => if ds.length = 4 then some (natOfDigits ds, rest) else none

/-- A 1–2 digit `strptime` numeric field with value in `[lo, hi]` (the
backtracking regex alternations collapse to this because every field is
followed by a non-digit literal or the end of the string). -/
def pN2 (lo hi : Nat) (cs : List Char) : Option (Nat × List Char) :=
  match spanDigits cs with
  | (ds, rest) =>
      if ds.length = 1 ∨ ds.length = 2 then
        let v := natOfDigits ds
        if lo ≤ v ∧ v ≤ hi then some (v, rest) else none
      else none

/-- `strptime`'s `%d` field: 1–31, or a space followed by a single digit 1–9. -/
def pDay (cs : List Char) : Option (Nat × List Char) :=
  match cs with
  | ' ' :: cs' =>
      (match spanDigits cs' with
       | (ds, rest) =>
          if ds.length = 1 then
            let v := natOfDigits ds
            if 1 ≤ v ∧ v ≤ 9 then some (v, rest) else none
          else none)
  | _ => pN2 1 31 cs

/-- A literal character of a `strptime` format. -/
def pLit (c : Char) : List Char → Option (List Char)
  | x :: xs => if x = c then some xs else none
  | [] => none

/-- The `datetime` constructor's validation (as reached through `strptime` or
`fromisoformat`): year 1–9999, valid calendar date, time fields in range. -/
def mkDatetime (y m d h mi s us : Nat) : Option Int :=
  if 1 ≤ y ∧ y ≤ 9999 ∧ 1 ≤ m ∧ m ≤ 12 ∧ 1 ≤ d ∧ d ≤ daysInMonth y m
      ∧ h ≤ 23 ∧ mi ≤ 59 ∧ s ≤ 59 ∧ us ≤ 999999 then
    some (toTimeline y m d h mi s us)
  else none

/-- The `%Y-%m-%d` prefix shared by all five formats. -/
def pDate (cs : List Char) : Option (Nat × Nat × Nat × List Char) :=
  match pFix4 cs with
  | none => none
  | some (y, cs) =>
      match pLit '-' cs with
      | none => none
      | some cs =>
          match pN2 1 12 cs with
          | none => none
          | some (m, cs) =>
              match pLit '-' cs with
              | none => none
              | some cs =>
                  match pDay cs with
                  | none => none
                  | some (d, cs) => some (y, m, d, cs)

/-- One `strptime` format of `parse_time_string`: date, a separator (`T` or a
space), `%H:%M`, optionally `:%S`, optionally a literal `Z`, end of string.
Yields the field values on a full match. -/
def pStamp (sep : Char) (withSec withZ : Bool) (cs : List Char) :
    Option (Nat × Nat × Nat × Nat × Nat × Nat) :=
  match pDate cs with
  | none => none
  | some (y, m, d, cs) =>
      match pLit sep cs with
      | none => none
      | some cs =>
          match pN2 0 23 cs with
          | none => none
          | some (h, cs) =>
              match pLit ':' cs with
              | none => none
              | some cs =>
                  match pN2 0 59 cs with
                  | none => none
                  | some (mi, cs) =>
                      if withSec then
                        match pLit ':' cs with
                        | none => none
                        | some cs =>
                            match pN2 0 61 cs with
                            | none => none
                            | some (s, cs) =>
                                match (if withZ then pLit 'Z' cs else some cs) with
                                | none => none
                                | some cs =>
                                    if cs.isEmpty then some (y, m, d, h, mi, s) else none
                      else
                        if cs.isEmpty then some (y, m, d, h, mi, 0) else none

/-- One `strptime` attempt: regex match followed by `datetime` construction. -/
def tryFmt (sep : Char) (withSec withZ : Bool) (cs : List Char) : Option Int :=
  match pStamp sep withSec withZ cs with
  | none => none
  | some (y, m, d, h, mi, s) => mkDatetime y m d h mi s 0

/-- The format list of `parse_time_string`, tried in source order:
`%Y-%m-%dT%H:%M:%S`, `%Y-%m-%d %H:%M:%S`, `%Y-%m-%dT%H:%M`,
`%Y-%m-%d %H:%M`, `%Y-%m-%dT%H:%M:%SZ`. -/
def tryFormats (cs : List Char) : Option Int :=
  match tryFmt 'T' true false cs with
  | some t => some t
  | none =>
      match tryFmt ' ' true false cs with
      | some t => some t
      | none =>
          match tryFmt 'T' false false cs with
          | some t => some t
          | none =>
              match tryFmt ' ' false false cs with
              | some t => some t
              | none => tryFmt 'T' true true cs

/-- Two fixed decimal digits of `fromisoformat`. -/
def d2 (a b : Char) : Option Nat :=
  if a.isDigit && b.isDigit then some ((a.toNat - 48) * 10 + (b.toNat - 48)) else none

/-- The time tail of `fromisoformat`: `HH`, `HH:MM`, `HH:MM:SS`,
`HH:MM:SS.fff` or `HH:MM:SS.ffffff`, yielding `(h, mi, s, us)`. -/
def fromisoTime : List Char → Option (Nat × Nat × Nat × Nat)
  | [a, b] => match d2 a b with
      | some h => some (h, 0, 0, 0)
      | none => none
  | [a, b, ':', c, d] =>
      (match d2 a b, d2 c d with
       | some h, some mi => some (h, mi, 0, 0)
       | _, _ => none)
  | [a, b, ':', c, d, ':', e, f] =>
      (match d2 a b, d2 c d, d2 e f with
       | some h, some mi, some s => some (h, mi, s, 0)
       | _, _, _ => none)
  | [a, b, ':', c, d, ':', e, f, '.', g, h3, i] =>
      (match d2 a b, d2 c d, d2 e f with
       | some h, some mi, some s =>
          if g.isDigit && h3.isDigit && i.isDigit then
            some (h, mi, s, natOfDigits [g, h3, i] * 1000)
          else none
       | _, _, _ => none)
  | [a, b, ':', c, d, ':', e, f, '.', g, h3, i, j, k, l] =>
      (match d2 a b, d2 c d, d2 e f with
       | some h, some mi, some s =>
          if g.isDigit && h3.isDigit && i.isDigit && j.isDigit && k.isDigit && l.isDigit then
            some (h, mi, s, natOfDigits [g, h3, i, j, k, l])
          else none
       | _, _, _ => none)
  | _ => none

/-- `datetime.fromisoformat` (the fallback of `parse_time_string`), on naive
timestamps: a strict `YYYY-MM-DD` date, optionally followed by a one-character
separator and a time tail.  Timezone-offset suffixes are outside the modelled
input domain. -/
def fromiso (cs : List Char) : Option Int :=
  match cs with
  | a :: b :: c :: d :: '-' :: e :: f :: '-' :: g :: h :: rest =>
      if a.isDigit && b.isDigit && c.isDigit && d.isDigit
          && e.isDigit && f.isDigit && g.isDigit && h.isDigit then
        let y := natOfDigits [a, b, c, d]
        let mo := natOfDigits [e, f]
        let dy := natOfDigits [g, h]
        match rest with
        | [] => mkDatetime y mo dy 0 0 0 0
        | _ :: tcs =>
            match fromisoTime tcs with
            | some (hh, mi, ss, us) => mkDatetime y mo dy hh mi ss us
            | none => none
      else none
  | _ => none

/-- `time_str.replace('Z', '')`: remove every `Z`. -/
def stripZ (s : String) : String := ⟨s.data.filter (fun c => c ≠ 'Z')⟩

/-- `parse_time_string` from `RizeClient.create_session`: strip `Z`, try the
five `strptime` formats in order, then `fromisoformat`; raise
`ValueError(f"Cannot parse time string: {time_str}")` if all fail. -/
def parse_time_string (s : String) : Except String Int :=
  let t := (stripZ s).data
  match tryFormats t with
  | some dt => .ok dt
  | none =>
      match fromiso t with
      | some dt => .ok dt
      | none => .error ("Cannot parse time string: " ++ s)

example : parse_time_string ("2024-07-21T09:00:00") = .ok (toTimeline 2024 7 21 9 0 0 0) := rfl
example : parse_time_string ("2024-07-21 09:00:00") = .ok (toTimeline 2024 7 21 9 0 0 0) := rfl
example : parse_time_string ("2024-07-21T09:00") = .ok (toTimeline 2024 7 21 9 0 0 0) := rfl
example : parse_time_string ("2024-07-21 09:00") = .ok (toTimeline 2024 7 21 9 0 0 0) := rfl
example : parse_time_string ("2024-07-21T09:00:00Z") = .ok (toTimeline 2024 7 21 9 0 0 0) := rfl
example : parse_time_string ("2024-07-21 09:00Z") = .ok (toTimeline 2024 7 21 9 0 0 0) := rfl
example : parse_time_string ("2024-7-21T9:5") = .ok (toTimeline 2024 7 21 9 5 0 0) := rfl
example : parse_time_string ("2024-07-21") = .ok (toTimeline 2024 7 21 0 0 0 0) := rfl
example : parse_time_string ("2024-07-21x09:30") = .ok (toTimeline 2024 7 21 9 30 0 0) := rfl
example : parse_time_string ("2024-02-30T09:00") = .error ("Cannot parse time string: 2024-02-30T09:00") := rfl
example : parse_time_string ("hello") = .error ("Cannot parse time string: hello") := rfl
example : parse_time_string ("2024-07-21T09:00:61") = .error ("Cannot parse time string: 2024-07-21T09:00:61") := rfl

/-- The two exception classes raised by `RizeClient.execute_query`:
`ConnectionError` (connection-class failures) and `ValueError`. -/
inductive RizeError where
  | connectionError (msg : String)
  | valueError (msg : String)
deriving Repr, DecidableEq

/-- `str(e)` of a client exception. -/
def RizeError.str : RizeError → String
  | .connectionError m => m
  | .valueError m => m

/-- The transport outcome of one HTTP POST: a connect timeout, another
`httpx.RequestError`, or a response with status, raw text and (when the text
is valid JSON) its parsed body. -/
inductive HttpOutcome where
  | connectTimeout
  | requestError (msg : String)
  | response (status : Nat) (text : String) (body : Option Json)
deriving Repr

/-- `str` of the `json.JSONDecodeError` raised by `response.json()` on a
non-JSON body (the position details of the real message are not modelled). -/
def jsonDecodeMsg (text : String) : String :=
  "Expecting value: line 1 column 1 (char 0)"

/-- The message-accumulation loop over the `errors` collection:
`error_msg += error.get("message", "未知错误") + "; "`, with Python's
exceptions for non-dict entries and non-string messages. -/
def gqlLoop : List Json → String → Except String String
  | [], acc => .ok acc
  | e :: es, acc =>
      match e.get "message" (.str "未知错误") with
      | .error ex => .error ex
      | .ok (.str m) => gqlLoop es (acc ++ m ++ "; ")
      | .ok v =>
          .error ("can only concatenate str (not \"" ++ v.pyTypeName ++ "\") to str")

/-- The body of the `if "errors" in result:` branch: build the message and
return what the raised `ValueError`'s `str` is (`.ok`) or the `str` of
another exception raised while building it (`.error`). -/
def graphqlErrorMsg (result : Json) : Except String String :=
  match result.item "errors" with
  | .error e => .error e
  | .ok errs =>
      match errs.iter with
      | .error e => .error e
      | .ok es =>
          match gqlLoop es "GraphQL错误: " with
          | .error e => .error e
          | .ok msg => .ok (pyRstrip msg [';', ' '])

/-- `s[:n]` on strings. -/
def strTake (s : String) (n : Nat) : String := ⟨s.data.take n⟩

/-- `s[-n:]` on strings (the whole string when it is shorter than `n`). -/
def strTakeRight (s : String) (n : Nat) : String := ⟨s.data.drop (s.data.length - n)⟩

/-- `RizeClient.execute_query`, as a function of the configured token and the
transport outcome of the single POST.  Mirrors the source's `try`/`except`
structure: 2xx bodies are JSON-decoded and checked for a top-level `errors`
key (the `ValueError` raised there is itself caught by the final generic
`except Exception` and re-wrapped as `❌ 未知错误: ...`); non-2xx statuses are
classified as 401 / 429 / ≥500 / other; connect timeouts and other request
errors become `ConnectionError`s. -/
def execute_query (api_token : String) (outcome : HttpOutcome) : Except RizeError Json :=
  match outcome with
  | .connectTimeout => .error (.connectionError "🔌 连接Rize API超时，请检查网络连接")
  | .requestError m => .error (.connectionError ("🚫 网络请求失败: " ++ m))
  | .response status text body =>
      if 200 ≤ status ∧ status ≤ 299 then
        match body with
        | none => .error (.valueError ("❌ 未知错误: " ++ jsonDecodeMsg text))
        | some result =>
            match result.hasKeyE "errors" with
            | .error e => .error (.valueError ("❌ 未知错误: " ++ e))
            | .ok true =>
                match graphqlErrorMsg result with
                | .ok msg => .error (.valueError ("❌ 未知错误: " ++ msg))
                | .error e => .error (.valueError ("❌ 未知错误: " ++ e))
            | .ok false => .ok result
      else
        if status = 401 then
          .error (.valueError ("🔐 API认证失败，请检查token是否正确\n当前token: "
            ++ strTake api_token 8 ++ "..." ++ strTakeRight api_token 4))
        else if status = 429 then
          .error (.valueError "⏱️ API请求频率超限，请稍后重试")
        else if 500 ≤ status then
          .error (.connectionError ("🔥 Rize服务器错误 (" ++ toString status ++ ")"))
        else
          .error (.valueError ("❌ HTTP错误 " ++ toString status ++ ": " ++ text))

/-- A GraphQL operation request: document plus variables. -/
structure GqlRequest where
  doc : String
  vars : Json
deriving Repr

/-- The `CreateProject` mutation document. -/
def createProjectDoc : String :=
  "\n        mutation CreateProject($input: CreateProjectInput!) \x7b\n            createProject(input: $input) \x7b\n                project \x7b\n                    id\n                    name\n                    color\n                    emoji\n                    status\n                    timeSpent\n                    timeBudget\n                    timeBudgetInterval\n                    createdAt\n                    client \x7b\n                        id\n                        name\n                    \x7d\n                \x7d\n                errors \x7b\n                    message\n                    path\n                \x7d\n            \x7d\n        \x7d\n        "

/-- The `CreateSession` mutation document. -/
def createSessionDoc : String :=
  "\n        mutation CreateSession($input: CreateSessionInput!) \x7b\n            createSession(input: $input) \x7b\n                session \x7b\n                    id\n                    title\n                    description\n                    type\n                    startTime\n                    endTime\n                    createdAt\n                \x7d\n            \x7d\n        \x7d\n        "

/-- The `StartSessionTimer` mutation document. -/
def startSessionTimerDoc : String :=
  "\n        mutation StartSessionTimer($input: StartSessionTimerInput!) \x7b\n            startSessionTimer(input: $input) \x7b\n                session \x7b\n                    id\n                    type\n                    startTime\n                \x7d\n                errors \x7b\n                    message\n                    path\n                \x7d\n            \x7d\n        \x7d\n        "

/-- The `StopSessionTimer` mutation document. -/
def stopSessionTimerDoc : String :=
  "\n        mutation StopSessionTimer($input: StopSessionTimerInput!) \x7b\n            stopSessionTimer(input: $input) \x7b\n                session \x7b\n                    id\n                    type\n                    startTime\n                    endTime\n                \x7d\n                errors \x7b\n                    message\n                    path\n                \x7d\n            \x7d\n        \x7d\n        "

/-- `time_str.replace(...)` on a non-string raises `AttributeError`; extract
the string otherwise. -/
def asStr (j : Json) : Except String String :=
  match j with
  | .str s => .ok s
  | _ => .error ("\x27" ++ j.pyTypeName ++ "\x27 object has no attribute \x27replace\x27")

/-- `timedelta(minutes=x)` accepts ints (and bools, which are ints);
anything else raises `TypeError`. -/
def timedeltaMinutes : Json → Except String Int
  | .num n => .ok n
  | .bool b => .ok (if b then 1 else 0)
  | j => .error ("unsupported type for timedelta minutes component: " ++ j.pyTypeName)

/-- The four-way start/end window resolution of `RizeClient.create_session`
(`if start_time and end_time / elif start_time / elif end_time / else`),
yielding `(start_dt, end_dt)` on the microsecond timeline; `now` is
`datetime.now()`. -/
def resolveWindow (now : Int) (duration start_time end_time : Json) :
    Except String (Int × Int) :=
  if start_time.truthy && end_time.truthy then
    match asStr start_time with
    | .error e => .error e
    | .ok ss =>
        match parse_time_string ss with
        | .error e => .error e
        | .ok s =>
            match asStr end_time with
            | .error e => .error e
            | .ok es =>
                match parse_time_string es with
                | .error e => .error e
                | .ok e => .ok (s, e)
  else if start_time.truthy then
    match asStr start_time with
    | .error e => .error e
    | .ok ss =>
        match parse_time_string ss with
        | .error e => .error e
        | .ok s =>
            match timedeltaMinutes duration with
            | .error e => .error e
            | .ok d => .ok (s, s + d * usPerMinute)
  else if end_time.truthy then
    match asStr end_time with
    | .error e => .error e
    | .ok es =>
        match parse_time_string es with
        | .error e => .error e
        | .ok e =>
            match timedeltaMinutes duration with
            | .error ex => .error ex
            | .ok d => .ok (e - d * usPerMinute, e)
  else
    match timedeltaMinutes duration with
    | .error e => .error e
    | .ok d => .ok (now, now + d * usPerMinute)

/-- `RizeClient.create_session` up to the outbound request: resolve the
window, serialize both bounds as `isoformat() + "Z"`, add `title` /
`description` when truthy, and nest everything under `input.args`.
The `session_type` parameter is unused by the source. -/
def createSessionRequest (now : Int)
    (session_type title description duration start_time end_time : Json) :
    Except String GqlRequest :=
  match resolveWindow now duration start_time end_time with
  | .error e => .error e
  | .ok (s, e) =>
      let sargs := [("startTime", Json.str (pyIsoformat s ++ "Z")),
                    ("endTime", Json.str (pyIsoformat e ++ "Z"))]
      let sargs := sargs ++ (if title.truthy then [("title", title)] else [])
      let sargs := sargs ++ (if description.truthy then [("description", description)] else [])
      .ok ⟨createSessionDoc, Json.obj [("input", Json.obj [("args", Json.obj sargs)])]⟩

/-- The `project_input` dict of `RizeClient.create_project`: `name` always
present, each optional argument added only when truthy. -/
def createProjectInput
    (name client_id color emoji time_budget time_budget_interval : Json) :
    List (String × Json) :=
  [("name", name)]
  ++ (if client_id.truthy then [("clientId", client_id)] else [])
  ++ (if color.truthy then [("color", color)] else [])
  ++ (if emoji.truthy then [("emoji", emoji)] else [])
  ++ (if time_budget.truthy then [("timeBudget", time_budget)] else [])
  ++ (if time_budget_interval.truthy then
      [("timeBudgetInterval", time_budget_interval)] else [])

/-- `RizeClient.create_project` up to the outbound request. -/
def createProjectRequest
    (name client_id color emoji time_budget time_budget_interval : Json) : GqlRequest :=
  ⟨createProjectDoc, Json.obj [("input", Json.obj
    (createProjectInput name client_id color emoji time_budget time_budget_interval))]⟩

/-- `RizeClient.start_session_timer` up to the outbound request.  The
`session_type` argument is ignored by the source; `nowSec` is
`int(time.time())`, which the source embeds into `clientMutationId`. -/
def startSessionTimerRequest (session_type : Json) (nowSec : Int) : GqlRequest :=
  ⟨startSessionTimerDoc,
   Json.obj [("input",
     Json.obj [("clientMutationId", Json.str ("start_timer_" ++ toString nowSec))])]⟩

/-- `RizeClient.stop_session_timer` up to the outbound request: the input is
an empty object. -/
def stopSessionTimerRequest : GqlRequest :=
  ⟨stopSessionTimerDoc, Json.obj [("input", Json.obj [])]⟩

example : execute_query ("tok") (.response 429 ("r") none)
    = .error (.valueError "⏱️ API请求频率超限，请稍后重试") := rfl
example : execute_query ("abcdefghijklmn") (.response 401 ("r") none)
    = .error (.valueError ("🔐 API认证失败，请检查token是否正确\n当前token: abcdefgh...klmn")) := rfl
example : execute_query ("tok") (.response 200 ("")
      (some (Json.obj [("errors", Json.arr [Json.obj [("message", Json.str "boom")]])])))
    = .error (.valueError "❌ 未知错误: GraphQL错误: boom") := rfl
example : execute_query ("tok") (.response 200 ("") (some (Json.obj [("data", Json.null)])))
    = .ok (Json.obj [("data", Json.null)]) := rfl

/-- One outbound `execute_query` invocation (a network request), tagged by
operation and carrying the client-side argument / built variables. -/
inductive ClientCall where
  | testConnection
  | getProjects (limit : Json)
  | createProject (vars : Json)
  | startSessionTimer (vars : Json)
  | stopSessionTimer
  | getCurrentSession
  | createSession (vars : Json)
deriving Repr

/-- Whether a call is a GraphQL mutation (as opposed to a query). -/
def ClientCall.isMutation : ClientCall → Bool
  | .createProject _ => true
  | .startSessionTimer _ => true
  | .stopSessionTimer => true
  | .createSession _ => true
  | _ => false

/-- The network, as seen by a handler: each outbound request yields either a
parsed success body or a classified client exception. -/
def Oracle : Type := ClientCall → Except RizeError Json

/-- `result.get(k1, {}).get(k2, {})`. -/
def jget2 (result : Json) (k1 k2 : String) : Except String Json :=
  match result.get k1 (.obj []) with
  | .error e => .error e
  | .ok d => d.get k2 (.obj [])

/-- `len(x)` (`TypeError` on numbers, booleans and `None`). -/
def pyLen : Json → Except String Nat
  | .arr xs => .ok xs.length
  | .obj fs => .ok fs.length
  | .str s => .ok s.data.length
  | j => .error ("object of type \x27" ++ j.pyTypeName ++ "\x27 has no len()")

/-- The f-string rendering of `[err['message'] for err in errors]`. -/
def errMsgList (errs : Json) : Except String String :=
  match errs.iter with
  | .error e => .error e
  | .ok es =>
      match es.mapM (fun e => e.item "message") with
      | .error e => .error e
      | .ok msgs => .ok ((Json.arr msgs).pyStr)

/-- `test_connection_handler` (which wraps `RizeClient.test_connection`; that
method catches its own failures and returns an `[ERROR]`-prefixed message). -/
def test_connection_handler (o : Oracle) : String × List ClientCall :=
  (match o .testConnection with
   | .error e => "[ERROR] Connection failed: " ++ e.str
   | .ok result =>
      match jget2 result "data" "currentUser" with
      | .error e => "[ERROR] Connection failed: " ++ e
      | .ok cu =>
          match cu.get "email" (.str "Unknown") with
          | .error e => "[ERROR] Connection failed: " ++ e
          | .ok em => "[OK] Connection successful! User: " ++ em.pyStr,
   [.testConnection])

/-- The per-edge loop of `list_projects_handler`:
`f"{emoji} {name} (ID: {project_id})\n"` accumulated over `edges`. -/
def projectsLines : List Json → String → Except String String
  | [], acc => .ok acc
  | edge :: rest, acc =>
      match edge.item "node" with
      | .error e => .error e
      | .ok project =>
          match project.get "emoji" (.str "") with
          | .error e => .error e
          | .ok emoji =>
              match project.item "name" with
              | .error e => .error e
              | .ok name =>
                  match project.item "id" with
                  | .error e => .error e
                  | .ok pid =>
                      projectsLines rest
                        (acc ++ emoji.pyStr ++ " " ++ name.pyStr ++ " (ID: " ++ pid.pyStr ++ ")\n")

/-- Response formatting of `list_projects_handler` after a successful call
(`.error` = a raised exception, caught by the handler's `except`). -/
def list_projects_format (result : Json) : Except String String :=
  match result.hasKeyE "errors" with
  | .error e => .error e
  | .ok true =>
      match result.item "errors" with
      | .error e => .error e
      | .ok errs => .ok ("[ERROR] Failed to get projects: " ++ errs.pyStr)
  | .ok false =>
      match jget2 result "data" "projects" with
      | .error e => .error e
      | .ok pr =>
          match pr.get "edges" (.arr []) with
          | .error e => .error e
          | .ok projects =>
              if !projects.truthy then
                .ok "[INFO] No projects found. Use create_project to create one."
              else
                match pyLen projects with
                | .error e => .error e
                | .ok n =>
                    match projects.iter with
                    | .error e => .error e
                    | .ok edges =>
                        match projectsLines edges "" with
                        | .error e => .error e
                        | .ok body =>
                            .ok (pyStrip ("[SUCCESS] Found " ++ toString n
                              ++ " projects:\n\n" ++ body))

/-- `list_projects_handler`. -/
def list_projects_handler (o : Oracle) (args : Json) : String × List ClientCall :=
  match args.get "limit" (.num 10) with
  | .error e => ("[ERROR] Failed to list projects: " ++ e, [])
  | .ok limit =>
      (match o (.getProjects limit) with
       | .error e => "[ERROR] Failed to list projects: " ++ e.str
       | .ok result =>
          match list_projects_format result with
          | .ok s => s
          | .error e => "[ERROR] Failed to list projects: " ++ e,
       [.getProjects limit])

/-- Response formatting of `create_project_handler` after a successful call. -/
def create_project_format (result : Json) : Except String String :=
  match jget2 result "data" "createProject" with
  | .error e => .error e
  | .ok cp =>
      match cp.hasKeyE "errors" with
      | .error e => .error e
      | .ok true =>
          match result.item "data" with
          | .error e => .error e
          | .ok d =>
              match d.item "createProject" with
              | .error e => .error e
              | .ok cp' =>
                  match cp'.item "errors" with
                  | .error e => .error e
                  | .ok errs =>
                      match errMsgList errs with
                      | .error e => .error e
                      | .ok ms => .ok ("[ERROR] Failed to create project: " ++ ms)
      | .ok false =>
          match cp.get "project" .null with
          | .error e => .error e
          | .ok project =>
              if !project.truthy then .ok "[ERROR] Failed to create project: No response data"
              else
                match project.get "emoji" (.str "") with
                | .error e => .error e
                | .ok emoji =>
                    match project.item "name" with
                    | .error e => .error e
                    | .ok name =>
                        match project.item "id" with
                        | .error e => .error e
                        | .ok pid =>
                            .ok ("[SUCCESS] Project created: " ++ emoji.pyStr ++ " "
                              ++ name.pyStr ++ " (ID: " ++ pid.pyStr ++ ")")

/-- `create_project_handler`: requires `name`, forwards `emoji`, the other
client parameters stay at their `None` defaults. -/
def create_project_handler (o : Oracle) (args : Json) : String × List ClientCall :=
  match args.get "name" .null with
  | .error e => ("[ERROR] Failed to create project: " ++ e, [])
  | .ok name =>
      if !name.truthy then ("[ERROR] Missing required parameter: name", [])
      else
        match args.get "emoji" .null with
        | .error e => ("[ERROR] Failed to create project: " ++ e, [])
        | .ok emoji =>
            let req := createProjectRequest name Json.null Json.null emoji Json.null Json.null
            (match o (.createProject req.vars) with
             | .error e => "[ERROR] Failed to create project: " ++ e.str
             | .ok result =>
                match create_project_format result with
                | .ok s => s
                | .error e => "[ERROR] Failed to create project: " ++ e,
             [.createProject req.vars])

/-- Response formatting of `start_session_timer_handler` after a successful
call. -/
def start_session_timer_format (result : Json) : Except String String :=
  match jget2 result "data" "startSessionTimer" with
  | .error e => .error e
  | .ok st =>
      match st.hasKeyE "errors" with
      | .error e => .error e
      | .ok true =>
          match result.item "data" with
          | .error e => .error e
          | .ok d =>
              match d.item "startSessionTimer" with
              | .error e => .error e
              | .ok st' =>
                  match st'.item "errors" with
                  | .error e => .error e
                  | .ok errs =>
                      match errMsgList errs with
                      | .error e => .error e
                      | .ok ms => .ok ("[ERROR] Failed to start timer: " ++ ms)
      | .ok false =>
          match st.get "session" .null with
          | .error e => .error e
          | .ok session =>
              if !session.truthy then .ok "[ERROR] Failed to start timer: No response data"
              else
                match session.item "id" with
                | .error e => .error e
                | .ok sid =>
                    match session.get "startTime" (.str "") with
                    | .error e => .error e
                    | .ok stt =>
                        .ok ("[SUCCESS] Timer started! Session ID: " ++ sid.pyStr
                          ++ ", Start time: " ++ stt.pyStr)

/-- `start_session_timer_handler`; `now` is `int(time.time())` at the moment
the client builds `clientMutationId`. -/
def start_session_timer_handler (now : Int) (o : Oracle) (args : Json) :
    String × List ClientCall :=
  match args.get "session_type" (.str "FOCUS") with
  | .error e => ("[ERROR] Failed to start timer: " ++ e, [])
  | .ok st =>
      let req := startSessionTimerRequest st now
      (match o (.startSessionTimer req.vars) with
       | .error e => "[ERROR] Failed to start timer: " ++ e.str
       | .ok result =>
          match start_session_timer_format result with
          | .ok s => s
          | .error e => "[ERROR] Failed to start timer: " ++ e,
       [.startSessionTimer req.vars])

/-- Formatting of the confirmed branch of `stop_session_timer_handler` after
a successful mutation (`.error` = a raised exception, caught by the handler's
outer `except`). -/
def stop_confirmed_format (result : Json) : Except String String :=
  match jget2 result "data" "stopSessionTimer" with
  | .error e => .error e
  | .ok sp =>
      match sp.hasKeyE "errors" with
      | .error e => .error e
      | .ok true =>
          match result.item "data" with
          | .error e => .error e
          | .ok d =>
              match d.item "stopSessionTimer" with
              | .error e => .error e
              | .ok sp' =>
                  match sp'.item "errors" with
                  | .error e => .error e
                  | .ok errs =>
                      match errMsgList errs with
                      | .error e => .error e
                      | .ok ms => .ok ("[ERROR] Failed to stop timer: " ++ ms)
      | .ok false =>
          match sp.get "session" .null with
          | .error e => .error e
          | .ok session =>
              if !session.truthy then .ok "[ERROR] Failed to stop timer: No response data"
              else
                match session.item "id" with
                | .error e => .error e
                | .ok sid =>
                    match session.get "endTime" (.str "") with
                    | .error e => .error e
                    | .ok et =>
                        .ok ("[SUCCESS] Timer stopped! Session ID: " ++ sid.pyStr
                          ++ ", End time: " ++ et.pyStr)

/-- Formatting of the unconfirmed branch of `stop_session_timer_handler`
after fetching the current session. -/
def stop_unconfirmed_format (current_result : Json) : Except String String :=
  match current_result.get "data" (.obj []) with
  | .error e => .error e
  | .ok d =>
      match d.get "currentSession" .null with
      | .error e => .error e
      | .ok current_session =>
              if !current_session.truthy then .ok "[INFO] 没有活动的会话需要停止。"
              else
                match current_session.item "id" with
                | .error e => .error e
                | .ok sid =>
                    match current_session.get "title" (.str "当前会话") with
                    | .error e => .error e
                    | .ok title =>
                        match current_session.get "startTime" (.str "") with
                        | .error e => .error e
                        | .ok stt =>
                            .ok ("[CONFIRM] 即将停止以下会话：\n\n"
                              ++ "  - 会话ID: " ++ sid.pyStr ++ "\n"
                              ++ "  - 标题: " ++ title.pyStr ++ "\n"
                              ++ "  - 开始时间: " ++ stt.pyStr ++ "\n\n"
                              ++ "这将结束当前会话并记录使用时间。\n"
                              ++ "如果确认要停止，请再次调用 stop_session_timer 并添加参数 confirm=true")

/-- `stop_session_timer_handler`: the two-step confirmation machine. -/
def stop_session_timer_handler (o : Oracle) (args : Json) : String × List ClientCall :=
  match args.get "confirm" (.bool false) with
  | .error e => ("[ERROR] Failed to process stop request: " ++ e, [])
  | .ok confirm =>
      if confirm.truthy then
        (match o .stopSessionTimer with
         | .error e => "[ERROR] Failed to process stop request: " ++ e.str
         | .ok result =>
            match stop_confirmed_format result with
            | .ok s => s
            | .error e => "[ERROR] Failed to process stop request: " ++ e,
         [.stopSessionTimer])
      else
        (match o .getCurrentSession with
         | .error e => "[ERROR] Failed to process stop request: " ++ e.str
         | .ok current_result =>
            match stop_unconfirmed_format current_result with
            | .ok s => s
            | .error e => "[ERROR] Failed to process stop request: " ++ e,
         [.getCurrentSession])

/-- Response formatting of `get_current_session_handler`. -/
def get_current_session_format (result : Json) : Except String String :=
  match result.hasKeyE "errors" with
  | .error e => .error e
  | .ok true =>
      match result.item "errors" with
      | .error e => .error e
      | .ok errs => .ok ("[ERROR] Failed to get current session: " ++ errs.pyStr)
  | .ok false =>
      match result.get "data" (.obj []) with
      | .error e => .error e
      | .ok d =>
          match d.get "currentSession" .null with
          | .error e => .error e
          | .ok session =>
              if !session.truthy then
                .ok "[INFO] No active session. Use start_session_timer to begin one."
                  else
                    match session.item "id" with
                    | .error e => .error e
                    | .ok sid =>
                        match session.get "title" (.str "Current session") with
                        | .error e => .error e
                        | .ok title =>
                            match session.get "type" (.str "") with
                            | .error e => .error e
                            | .ok ty =>
                                match session.get "startTime" (.str "") with
                                | .error e => .error e
                                | .ok stt =>
                                    .ok ("[SUCCESS] Active session: " ++ title.pyStr
                                      ++ " (ID: " ++ sid.pyStr ++ ", Type: " ++ ty.pyStr
                                      ++ ", Started: " ++ stt.pyStr ++ ")")

/-- `get_current_session_handler`. -/
def get_current_session_handler (o : Oracle) : String × List ClientCall :=
  (match o .getCurrentSession with
   | .error e => "[ERROR] Failed to get current session: " ++ e.str
   | .ok result =>
      match get_current_session_format result with
      | .ok s => s
      | .error e => "[ERROR] Failed to get current session: " ++ e,
   [.getCurrentSession])

/-- `duration_minutes < 5 or duration_minutes > 480`, with Python's
short-circuit evaluation and `TypeError` on non-numeric operands. -/
def durOutOfRange (j : Json) : Except String Bool :=
  match j with
  | .num n => .ok (decide (n < 5) || decide (n > 480))
  | .bool b => .ok (decide ((if b then (1 : Int) else 0) < 5))
  | _ => .error ("\x27<\x27 not supported between instances of \x27"
      ++ j.pyTypeName ++ "\x27 and \x27int\x27")

/-- `if duration_minutes and (duration_minutes < 5 or duration_minutes > 480)`:
the whole duration check, skipped (false) when the value is falsy. -/
def durCheck (duration : Json) : Except String Bool :=
  if duration.truthy then durOutOfRange duration else .ok false

/-- The `[CONFIRM]` message of `validate_session_params`. -/
def buildConfirmMsg (issues suggestions : List String) (fs : List (String × Json)) : String :=
  "[CONFIRM] 创建会话前需要确认以下信息：\n\n"
  ++ "发现的问题：\n"
  ++ String.join (issues.map (fun i => "  - " ++ i ++ "\n"))
  ++ "\n建议的参数：\n"
  ++ String.join (suggestions.map (fun s => "  " ++ s ++ "\n"))
  ++ "\n当前参数：\n"
  ++ String.join (fs.map (fun kv => "  - " ++ kv.1 ++ ": " ++ kv.2.pyStr ++ "\n"))
  ++ "\n请明确指定缺失的参数后重新调用 create_session。"

/-- `validate_session_params`: `(needs_confirmation, message)`.  Flags a
missing start+end pair, a missing title, and a *truthy* `duration_minutes`
outside `[5, 480]` (so a provided duration of `0` is never flagged). -/
def validate_session_params (args : Json) : Except String (Bool × String) :=
  match args with
  | .obj fs =>
      let start_time := (jfind fs "start_time").getD .null
      let end_time := (jfind fs "end_time").getD .null
      let duration := (jfind fs "duration_minutes").getD .null
      let title := (jfind fs "title").getD .null
      let timeIssue := !start_time.truthy && !end_time.truthy
      let titleIssue := !title.truthy
      match durCheck duration with
      | .error e => .error e
      | .ok durIssue =>
          let issues := (if timeIssue then ["开始时间和结束时间都未指定"] else [])
            ++ (if titleIssue then ["会话标题未指定"] else [])
            ++ (if durIssue then ["持续时间 " ++ duration.pyStr ++ " 分钟可能不合理"] else [])
          let suggestions := (if timeIssue then
              ["• 指定开始时间 (如: start_time=\x272025-07-21 14:00\x27)",
               "• 或指定结束时间 (如: end_time=\x272025-07-21 15:30\x27)"] else [])
            ++ (if titleIssue then ["• 添加标题 (如: title=\x27专注工作\x27)"] else [])
            ++ (if durIssue then ["• 建议持续时间在 5-480 分钟之间"] else [])
          if issues.isEmpty then .ok (false, "")
          else .ok (true, buildConfirmMsg issues suggestions fs)
  | _ => .error ("\x27" ++ args.pyTypeName ++ "\x27 object has no attribute \x27get\x27")

/-- Response formatting of `create_session_handler` after a successful call. -/
def create_session_format (result : Json) : Except String String :=
  match jget2 result "data" "createSession" with
  | .error e => .error e
  | .ok cs =>
      match cs.hasKeyE "errors" with
      | .error e => .error e
      | .ok true =>
          match result.item "data" with
          | .error e => .error e
          | .ok d =>
              match d.item "createSession" with
              | .error e => .error e
              | .ok cs' =>
                  match cs'.item "errors" with
                  | .error e => .error e
                  | .ok errs =>
                      match errMsgList errs with
                      | .error e => .error e
                      | .ok ms => .ok ("[ERROR] Failed to create session: " ++ ms)
      | .ok false =>
          match cs.get "session" .null with
          | .error e => .error e
          | .ok session =>
              if !session.truthy then .ok "[ERROR] Failed to create session: No response data"
              else
                match session.item "id" with
                | .error e => .error e
                | .ok sid =>
                    match session.get "title" (.str "New session") with
                    | .error e => .error e
                    | .ok title =>
                        match session.get "type" (.str "") with
                        | .error e => .error e
                        | .ok ty =>
                            match session.get "startTime" (.str "") with
                            | .error e => .error e
                            | .ok stt =>
                                match session.get "endTime" (.str "") with
                                | .error e => .error e
                                | .ok ett =>
                                    .ok ("[SUCCESS] Session created: " ++ title.pyStr
                                      ++ " (ID: " ++ sid.pyStr ++ ", Type: " ++ ty.pyStr
                                      ++ ", Duration: " ++ stt.pyStr ++ " to " ++ ett.pyStr ++ ")")

/-- `create_session_handler`: soft validation gate, then the client call. -/
def create_session_handler (now : Int) (o : Oracle) (args : Json) :
    String × List ClientCall :=
  match validate_session_params args with
  | .error e => ("[ERROR] Failed to create session: " ++ e, [])
  | .ok (true, msg) => (msg, [])
  | .ok (false, _) =>
      match args.get "session_type" (.str "focus") with
      | .error e => ("[ERROR] Failed to create session: " ++ e, [])
      | .ok st =>
          match args.get "title" .null with
          | .error e => ("[ERROR] Failed to create session: " ++ e, [])
          | .ok title =>
              match args.get "description" .null with
              | .error e => ("[ERROR] Failed to create session: " ++ e, [])
              | .ok desc =>
                  match args.get "duration_minutes" (.num 90) with
                  | .error e => ("[ERROR] Failed to create session: " ++ e, [])
                  | .ok dur =>
                      match args.get "start_time" .null with
                      | .error e => ("[ERROR] Failed to create session: " ++ e, [])
                      | .ok stt =>
                          match args.get "end_time" .null with
                          | .error e => ("[ERROR] Failed to create session: " ++ e, [])
                          | .ok ett =>
                              match createSessionRequest now st title desc dur stt ett with
                              | .error e => ("[ERROR] Failed to create session: " ++ e, [])
                              | .ok req =>
                                  (match o (.createSession req.vars) with
                                   | .error e => "[ERROR] Failed to create session: " ++ e.str
                                   | .ok result =>
                                      match create_session_format result with
                                      | .ok s => s
                                      | .error e => "[ERROR] Failed to create session: " ++ e,
                                   [.createSession req.vars])

/-- The tool names of the dispatcher's catalog. -/
def toolNames : List String :=
  ["test_connection", "list_projects", "create_project", "start_session_timer",
   "stop_session_timer", "get_current_session", "create_session"]

/-- `handle_call_tool`: normalize falsy `arguments` to `{}`, dispatch on the
tool name, and answer unknown names with an `[ERROR] Unknown tool` text. -/
def handle_call_tool (now : Int) (o : Oracle) (name : String) (arguments : Json) :
    String × List ClientCall :=
  let args := if arguments.truthy then arguments else Json.obj []
  if name = "test_connection" then test_connection_handler o
  else if name = "list_projects" then list_projects_handler o args
  else if name = "create_project" then create_project_handler o args
  else if name = "start_session_timer" then start_session_timer_handler now o args
  else if name = "stop_session_timer" then stop_session_timer_handler o args
  else if name = "get_current_session" then get_current_session_handler o
  else if name = "create_session" then create_session_handler now o args
  else ("[ERROR] Unknown tool: " ++ name, [])

example :
    stop_session_timer_handler (fun c => match c with
      | .getCurrentSession => .ok (Json.obj [("data", Json.obj [("currentSession",
          Json.obj [("id", Json.str "s1"), ("title", Json.str "Deep work"),
                    ("startTime", Json.str "2025-07-21T14:00:00Z")])])])
      | _ => .error (.valueError "x")) (Json.obj [])
    = ("[CONFIRM] 即将停止以下会话：\n\n  - 会话ID: s1\n  - 标题: Deep work\n  - 开始时间: 2025-07-21T14:00:00Z\n\n这将结束当前会话并记录使用时间。\n如果确认要停止，请再次调用 stop_session_timer 并添加参数 confirm=true",
       [ClientCall.getCurrentSession]) := rfl

example :
    stop_session_timer_handler (fun c => match c with
      | .getCurrentSession => .ok (Json.obj [("data", Json.obj [("currentSession", Json.null)])])
      | _ => .error (.valueError "x")) (Json.obj [("confirm", Json.bool false)])
    = ("[INFO] 没有活动的会话需要停止。", [ClientCall.getCurrentSession]) := rfl

example :
    stop_session_timer_handler (fun c => match c with
      | .stopSessionTimer => .ok (Json.obj [("data", Json.obj [("stopSessionTimer",
          Json.obj [("session", Json.obj [("id", Json.str "s1"),
                    ("endTime", Json.str "2025-07-21T15:00:00Z")])])])])
      | _ => .error (.valueError "x")) (Json.obj [("confirm", Json.bool true)])
    = ("[SUCCESS] Timer stopped! Session ID: s1, End time: 2025-07-21T15:00:00Z",
       [ClientCall.stopSessionTimer]) := rfl

example :
    create_session_handler 0 (fun _ => .error (.valueError "x")) (Json.obj [])
    = ("[CONFIRM] 创建会话前需要确认以下信息：\n\n发现的问题：\n  - 开始时间和结束时间都未指定\n  - 会话标题未指定\n\n建议的参数：\n  • 指定开始时间 (如: start_time=\x272025-07-21 14:00\x27)\n  • 或指定结束时间 (如: end_time=\x272025-07-21 15:30\x27)\n  • 添加标题 (如: title=\x27专注工作\x27)\n\n当前参数：\n\n请明确指定缺失的参数后重新调用 create_session。", []) := rfl

example :
    create_session_handler 0 (fun c => match c with
      | .createSession _ => .ok (Json.obj [("data", Json.obj [("createSession",
          Json.obj [("session", Json.obj [("id", Json.str "x"), ("title", Json.str "t"),
            ("type", Json.str "focus"), ("startTime", Json.str "a"),
            ("endTime", Json.str "b")])])])])
      | _ => .error (.valueError "x"))
      (Json.obj [("title", Json.str "t"), ("start_time", Json.str "2025-07-21 14:00"),
                 ("duration_minutes", Json.num 0)])
    = ("[SUCCESS] Session created: t (ID: x, Type: focus, Duration: a to b)",
       [ClientCall.createSession (Json.obj [("input", Json.obj [("args", Json.obj
          [("startTime", Json.str "2025-07-21T14:00:00Z"),
           ("endTime", Json.str "2025-07-21T14:00:00Z"),
           ("title", Json.str "t")])])])]) := rfl

example :
    create_session_handler 0 (fun _ => .error (.valueError "x"))
      (Json.obj [("title", Json.str "t"), ("start_time", Json.str "2025-07-21 14:00"),
                 ("duration_minutes", Json.num 3)])
    = ("[CONFIRM] 创建会话前需要确认以下信息：\n\n发现的问题：\n  - 持续时间 3 分钟可能不合理\n\n建议的参数：\n  • 建议持续时间在 5-480 分钟之间\n\n当前参数：\n  - title: t\n  - start_time: 2025-07-21 14:00\n  - duration_minutes: 3\n\n请明确指定缺失的参数后重新调用 create_session。", []) := rfl

example :
    list_projects_handler (fun c => match c with
      | .getProjects _ => .ok (Json.obj [("data", Json.obj [("projects",
          Json.obj [("edges", Json.arr [])])])])
      | _ => .error (.valueError "x")) (Json.obj [])
    = ("[INFO] No projects found. Use create_project to create one.",
       [ClientCall.getProjects (Json.num 10)]) := rfl

example :
    list_projects_handler (fun c => match c with
      | .getProjects _ => .ok (Json.obj [("data", Json.obj [("projects",
          Json.obj [("edges", Json.arr
            [Json.obj [("node", Json.obj [("id", Json.str "p1"), ("name", Json.str "A"),
                       ("emoji", Json.str "🎯")])],
             Json.obj [("node", Json.obj [("id", Json.str "p2"),
                       ("name", Json.str "B")])]])])])])
      | _ => .error (.valueError "x")) (Json.obj [("limit", Json.num 5)])
    = ("[SUCCESS] Found 2 projects:\n\n🎯 A (ID: p1)\n B (ID: p2)",
       [ClientCall.getProjects (Json.num 5)]) := rfl

example :
    test_connection_handler (fun _ => .error (.connectionError "boom"))
    = ("[ERROR] Connection failed: boom", [ClientCall.testConnection]) := rfl

example :
    get_current_session_handler (fun c => match c with
      | .getCurrentSession => .ok (Json.obj [("data", Json.obj [("currentSession", Json.null)])])
      | _ => .error (.valueError "x"))
    = ("[INFO] No active session. Use start_session_timer to begin one.",
       [ClientCall.getCurrentSession]) := rfl

example :
    handle_call_tool 0 (fun _ => .error (.valueError "x")) ("bogus_tool") Json.null
    = ("[ERROR] Unknown tool: bogus_tool", []) := rfl

/-! ### Supporting lemmas: string appending and right-stripping -/

theorem strAppend_empty (s : String) : s ++ "" = s := String.append_empty s

theorem dropWhile_append_all {p : Char → Bool} (l1 l2 : List Char)
    (h : ∀ a ∈ l1, p a = true) : (l1 ++ l2).dropWhile p = l2.dropWhile p := by
  induction l1 with
  | nil => rfl
  | cons c cs ih =>
      simp only [List.cons_append, List.dropWhile, h c (by simp)]
      exact ih (fun a ha => h a (by simp [ha]))

theorem pyRstrip_append_strip (x : String) (suffix cs : List Char)
    (h : ∀ c ∈ suffix, cs.contains c = true) :
    pyRstrip ⟨x.data ++ suffix⟩ cs = pyRstrip x cs := by
  simp only [pyRstrip, List.reverse_append]
  rw [dropWhile_append_all]
  intro a ha
  exact h a (List.mem_reverse.mp ha)

theorem pyRstrip_last_kept (l : List Char) (c : Char) (cs : List Char)
    (h : cs.contains c = false) : pyRstrip ⟨l ++ [c]⟩ cs = ⟨l ++ [c]⟩ := by
  have hrev : (l ++ [c]).reverse = c :: l.reverse := by simp
  simp only [pyRstrip, hrev, List.dropWhile_cons, h]
  simp

/-- The loop's accumulation: every message followed by `"; "`. -/
def joinSemis : List String → String
  | [] => ""
  | m :: ms => m ++ "; " ++ joinSemis ms

/-- Plain semicolon-separated join (no trailing separator). -/
def semiJoin : List String → String
  | [] => ""
  | [m] => m
  | m :: ms => m ++ "; " ++ semiJoin ms

/-- The standard shape of one GraphQL error entry. -/
def mkErrEntry (m : String) : Json := Json.obj [("message", Json.str m)]

theorem gqlLoop_map (msgs : List String) (acc : String) :
    gqlLoop (msgs.map mkErrEntry) acc = .ok (acc ++ joinSemis msgs) := by
  induction msgs generalizing acc with
  | nil => simp [gqlLoop, joinSemis, strAppend_empty]
  | cons m ms ih =>
      simp [gqlLoop, mkErrEntry, Json.get, jfind, joinSemis, ih, String.append_assoc]

theorem joinSemis_append_last (ms : List String) (m : String) :
    joinSemis (ms ++ [m]) = joinSemis ms ++ (m ++ "; ") := by
  induction ms with
  | nil => simp [joinSemis, strAppend_empty, String.append_assoc]
  | cons a rest ih => simp [joinSemis, ih, String.append_assoc]

theorem semiJoin_append_last (ms : List String) (m : String) :
    semiJoin (ms ++ [m]) = joinSemis ms ++ m := by
  induction ms with
  | nil => simp [semiJoin, joinSemis]
  | cons a rest ih =>
      cases rest with
      | nil => simp [semiJoin, joinSemis, String.append_assoc]
      | cons b bs =>
          simp only [List.cons_append] at ih
          simp only [List.cons_append, List.append_eq, semiJoin, joinSemis, ih,
            String.append_assoc]

theorem rstrip_joinSemis (pfx : String) (ms : List String) (d : List Char) (c : Char)
    (hc : ¬(c = ';' ∨ c = ' ')) :
    pyRstrip (pfx ++ joinSemis (ms ++ [⟨d ++ [c]⟩])) [';', ' ']
      = pfx ++ semiJoin (ms ++ [⟨d ++ [c]⟩]) := by
  push_neg at hc
  have hsemi : ("; " : String).data = [';', ' '] := rfl
  have hstr : pfx ++ joinSemis (ms ++ [(⟨d ++ [c]⟩ : String)])
      = ⟨((pfx ++ joinSemis ms).data ++ d ++ [c]) ++ [';', ' ']⟩ := by
    apply String.ext
    rw [joinSemis_append_last]
    simp [String.data_append, hsemi, List.append_assoc]
  have hmem : ∀ a ∈ ([';', ' '] : List Char), ([';', ' '] : List Char).contains a = true := by
    intro a ha
    simp only [List.mem_cons, List.not_mem_nil, or_false] at ha
    rcases ha with rfl | rfl <;> decide
  have c1 : (c == ';') = false := by simpa using hc.1
  have c2 : (c == ' ') = false := by simpa using hc.2
  calc pyRstrip (pfx ++ joinSemis (ms ++ [(⟨d ++ [c]⟩ : String)])) [';', ' ']
      = pyRstrip ⟨((pfx ++ joinSemis ms).data ++ d ++ [c]) ++ [';', ' ']⟩ [';', ' '] := by
        rw [hstr]
    _ = pyRstrip ⟨(pfx ++ joinSemis ms).data ++ d ++ [c]⟩ [';', ' '] :=
        pyRstrip_append_strip ⟨(pfx ++ joinSemis ms).data ++ d ++ [c]⟩ [';', ' '] [';', ' '] hmem
    _ = ⟨(pfx ++ joinSemis ms).data ++ d ++ [c]⟩ :=
        pyRstrip_last_kept _ c _ (by simp [List.contains, List.elem, c1, c2])
    _ = pfx ++ semiJoin (ms ++ [(⟨d ++ [c]⟩ : String)]) := by
        apply String.ext
        rw [semiJoin_append_last]
        simp [String.data_append, List.append_assoc]

/-! ### C5: transport-failure classification in `execute_query` -/

/-- C5: `execute_query` classifies failures by transport condition: a connect
timeout, a generic request error, and any 5xx status all yield
connection-class failures (`ConnectionError`); 401 yields an authentication
`ValueError` whose message embeds the token redacted to its first 8 and last
4 characters; 429 yields a rate-limit `ValueError`, a class distinct from the
`ConnectionError` used for 500; any other non-2xx status yields a generic
HTTP `ValueError` reporting the status code and the raw response body. -/
theorem execute_query_classifies (tok text m : String) (body : Option Json) :
    (execute_query tok .connectTimeout
      = .error (.connectionError "🔌 连接Rize API超时，请检查网络连接"))
    ∧ (execute_query tok (.requestError m)
      = .error (.connectionError ("🚫 网络请求失败: " ++ m)))
    ∧ (∀ status : Nat, 500 ≤ status → execute_query tok (.response status text body)
      = .error (.connectionError ("🔥 Rize服务器错误 (" ++ toString status ++ ")")))
    ∧ (execute_query tok (.response 401 text body)
      = .error (.valueError ("🔐 API认证失败，请检查token是否正确\n当前token: "
          ++ strTake tok 8 ++ "..." ++ strTakeRight tok 4)))
    ∧ (execute_query tok (.response 429 text body)
      = .error (.valueError "⏱️ API请求频率超限，请稍后重试"))
    ∧ (execute_query tok (.response 429 text body)
        ≠ execute_query tok (.response 500 text body))
    ∧ (∀ status : Nat, ¬(200 ≤ status ∧ status ≤ 299) → status ≠ 401 → status ≠ 429 →
        status < 500 → execute_query tok (.response status text body)
      = .error (.valueError ("❌ HTTP错误 " ++ toString status ++ ": " ++ text))) := by
  refine ⟨rfl, rfl, ?_, rfl, rfl, ?_, ?_⟩
  · intro status h5
    simp only [execute_query]
    rw [if_neg (by omega), if_neg (by omega), if_neg (by omega), if_pos (by omega)]
  · intro h
    have h2 := Except.error.inj h
    exact absurd h2 (by decide)
  · intro status hn h401 h429 h500
    simp only [execute_query]
    rw [if_neg (by simpa using hn), if_neg h401, if_neg h429, if_neg (by omega)]

/-- Witness for C5 at concrete statuses 502 and 404. -/
theorem execute_query_classifies_witness :
    execute_query ("tok") (.response 502 ("oops") none)
      = .error (.connectionError ("🔥 Rize服务器错误 (" ++ toString 502 ++ ")"))
    ∧ execute_query ("tok") (.response 404 ("nf") none)
      = .error (.valueError ("❌ HTTP错误 " ++ toString 404 ++ ": " ++ "nf")) :=
  ⟨(execute_query_classifies ("tok") ("oops") ("m") none).2.2.1 502 (by decide),
   (execute_query_classifies ("tok") ("nf") ("m") none).2.2.2.2.2.2 404
     (by decide) (by decide) (by decide) (by decide)⟩

/-! ### C6: GraphQL-level errors on 2xx responses -/

/-- C6 (amended): on a 2xx response whose body has a top-level `errors` list
of standard entries, `execute_query` raises a `ValueError` — so the (possibly
partial) data is never returned — whose message is `❌ 未知错误: ` (the
generic re-wrap applied by the outer `except Exception`) followed by
`GraphQL错误: ` and the entries' messages each suffixed by `"; "`, with
trailing `;`/space characters stripped; when the last message is nonempty and
ends in neither `;` nor a space, that tail equals the plain semicolon-join of
the messages.  A 2xx response without an `errors` key is returned unmodified. -/
theorem execute_query_graphql_errors (tok text : String) (status : Nat)
    (fs : List (String × Json)) (msgs : List String)
    (h2a : 200 ≤ status) (h2b : status ≤ 299)
    (hfind : jfind fs "errors" = some (Json.arr (msgs.map mkErrEntry))) :
    (execute_query tok (.response status text (some (Json.obj fs)))
      = .error (.valueError ("❌ 未知错误: "
          ++ pyRstrip ("GraphQL错误: " ++ joinSemis msgs) [';', ' '])))
    ∧ (∀ j, execute_query tok (.response status text (some (Json.obj fs))) ≠ .ok j)
    ∧ (∀ ms0 (d : List Char) (c : Char), msgs = ms0 ++ [⟨d ++ [c]⟩] →
        ¬(c = ';' ∨ c = ' ') →
        pyRstrip ("GraphQL错误: " ++ joinSemis msgs) [';', ' ']
          = "GraphQL错误: " ++ semiJoin msgs)
    ∧ (∀ j : Json, j.hasKeyE "errors" = .ok false →
        execute_query tok (.response status text (some j)) = .ok j) := by
  have hmain : execute_query tok (.response status text (some (Json.obj fs)))
      = .error (.valueError ("❌ 未知错误: "
          ++ pyRstrip ("GraphQL错误: " ++ joinSemis msgs) [';', ' '])) := by
    simp only [execute_query]
    rw [if_pos ⟨h2a, h2b⟩]
    simp only [Json.hasKeyE, hfind, Option.isSome_some, graphqlErrorMsg, Json.item,
      Json.iter, gqlLoop_map]
  refine ⟨hmain, ?_, ?_, ?_⟩
  · intro j h
    rw [hmain] at h
    exact absurd h (by simp)
  · intro ms0 d c hmsgs hc
    rw [hmsgs]
    exact rstrip_joinSemis ("GraphQL错误: ") ms0 d c hc
  · intro j hno
    simp only [execute_query]
    rw [if_pos ⟨h2a, h2b⟩]
    simp only [hno]

/-- Witness for C6 at a concrete 200 response carrying two error entries. -/
theorem execute_query_graphql_errors_witness :
    execute_query ("tok") (.response 200 ("")
        (some (Json.obj [("errors", Json.arr [mkErrEntry ("bad id"), mkErrEntry ("no auth")])])))
      = .error (.valueError ("❌ 未知错误: "
          ++ pyRstrip ("GraphQL错误: " ++ joinSemis ["bad id", "no auth"]) [';', ' ']))
    ∧ pyRstrip ("GraphQL错误: " ++ joinSemis ["bad id", "no auth"]) [';', ' ']
      = "GraphQL错误: " ++ semiJoin ["bad id", "no auth"] := by
  have h := execute_query_graphql_errors ("tok") ("") 200
    [("errors", Json.arr [mkErrEntry ("bad id"), mkErrEntry ("no auth")])]
    ["bad id", "no auth"] (by decide) (by decide) rfl
  exact ⟨h.1, h.2.2.1 ["bad id"] (['n', 'o', ' ', 'a', 'u', 't'] : List Char) 'h'
    (by decide) (by decide)⟩

/-- C6 counterexample to the claim as stated: on a 2xx body whose single
error entry has message `boom`, the failure's message is the re-wrapped
`❌ 未知错误: GraphQL错误: boom`, not the bare concatenation `boom` of the
entries' messages. -/
theorem execute_query_graphql_errors_cex :
    execute_query ("tok") (.response 200 ("")
        (some (Json.obj [("errors", Json.arr [Json.obj [("message", Json.str "boom")]])])))
      = .error (.valueError "❌ 未知错误: GraphQL错误: boom")
    ∧ ("❌ 未知错误: GraphQL错误: boom" : String) ≠ "boom" := ⟨rfl, by decide⟩

/-! ### C1: the four start/end/duration combinations in session creation -/

theorem resolveWindow_startOnly (now τ : Int) (st : Json) (hst : st.truthy = true) :
    resolveWindow now (Json.num τ) st Json.null
      = match asStr st with
        | .error e => .error e
        | .ok ss =>
            match parse_time_string ss with
            | .error e => .error e
            | .ok s => .ok (s, s + τ * usPerMinute) := by
  simp only [resolveWindow, timedeltaMinutes]
  rw [show Json.truthy Json.null = false from rfl, Bool.and_false]
  simp [hst]

theorem resolveWindow_endOnly (now τ : Int) (et : Json) (het : et.truthy = true) :
    resolveWindow now (Json.num τ) Json.null et
      = match asStr et with
        | .error e => .error e
        | .ok es =>
            match parse_time_string es with
            | .error e => .error e
            | .ok e => .ok (e - τ * usPerMinute, e) := by
  simp only [resolveWindow, timedeltaMinutes]
  rw [show Json.truthy Json.null = false from rfl, Bool.false_and]
  simp [het]

/-- C1: `create_session` resolves the window from the four input
combinations: both bounds given (truthy) → both parsed and used literally;
only start → end = start + duration; only end → start = end − duration;
neither → start = `datetime.now()`, end = now + duration.  Consequently,
whenever exactly one bound is given and resolution succeeds, the window
satisfies `end − start = duration_minutes` (in timeline microseconds,
`usPerMinute` per minute). -/
theorem resolveWindow_cases (now τ : Int) :
    (∀ (s e : String) (ts te : Int), s ≠ "" → e ≠ "" →
       parse_time_string s = .ok ts → parse_time_string e = .ok te →
       resolveWindow now (Json.num τ) (Json.str s) (Json.str e) = .ok (ts, te))
    ∧ (∀ (s : String) (ts : Int), s ≠ "" → parse_time_string s = .ok ts →
       resolveWindow now (Json.num τ) (Json.str s) Json.null
         = .ok (ts, ts + τ * usPerMinute))
    ∧ (∀ (e : String) (te : Int), e ≠ "" → parse_time_string e = .ok te →
       resolveWindow now (Json.num τ) Json.null (Json.str e)
         = .ok (te - τ * usPerMinute, te))
    ∧ (resolveWindow now (Json.num τ) Json.null Json.null
         = .ok (now, now + τ * usPerMinute))
    ∧ (∀ (st : Json) (a b : Int), st.truthy = true →
        resolveWindow now (Json.num τ) st Json.null = .ok (a, b) →
        b - a = τ * usPerMinute)
    ∧ (∀ (et : Json) (a b : Int), et.truthy = true →
        resolveWindow now (Json.num τ) Json.null et = .ok (a, b) →
        b - a = τ * usPerMinute) := by
  refine ⟨?_, ?_, ?_, ?_, ?_, ?_⟩
  · intro s e ts te hs he hps hpe
    simp [resolveWindow, Json.truthy, asStr, hs, he, hps, hpe]
  · intro s ts hs hps
    simp [resolveWindow, Json.truthy, asStr, timedeltaMinutes, hs, hps]
  · intro e te he hpe
    simp [resolveWindow, Json.truthy, asStr, timedeltaMinutes, he, hpe]
  · simp [resolveWindow, Json.truthy, timedeltaMinutes]
  · intro st a b hst hres
    rw [resolveWindow_startOnly now τ st hst] at hres
    cases hA : asStr st with
    | error e1 => rw [hA] at hres; simp at hres
    | ok ss =>
        rw [hA] at hres
        have hres2 : (match parse_time_string ss with
          | Except.error e => Except.error e
          | Except.ok s => Except.ok (s, s + τ * usPerMinute)) = Except.ok (a, b) := hres
        cases hP : parse_time_string ss with
        | error e2 => rw [hP] at hres2; simp at hres2
        | ok s =>
            rw [hP] at hres2
            simp only [Except.ok.injEq, Prod.mk.injEq] at hres2
            omega
  · intro et a b het hres
    rw [resolveWindow_endOnly now τ et het] at hres
    cases hA : asStr et with
    | error e1 => rw [hA] at hres; simp at hres
    | ok es =>
        rw [hA] at hres
        have hres2 : (match parse_time_string es with
          | Except.error e => Except.error e
          | Except.ok e => Except.ok (e - τ * usPerMinute, e)) = Except.ok (a, b) := hres
        cases hP : parse_time_string es with
        | error e2 => rw [hP] at hres2; simp at hres2
        | ok e =>
            rw [hP] at hres2
            simp only [Except.ok.injEq, Prod.mk.injEq] at hres2
            omega

/-- Witness for C1: all four combinations at concrete inputs, and the
one-bound difference property. -/
theorem resolveWindow_cases_witness :
    resolveWindow 5 (Json.num 90) (Json.str "2024-07-21T09:00:00")
        (Json.str "2024-07-21 10:30")
      = .ok (toTimeline 2024 7 21 9 0 0 0, toTimeline 2024 7 21 10 30 0 0)
    ∧ resolveWindow 5 (Json.num 90) (Json.str "2024-07-21T09:00:00") Json.null
      = .ok (toTimeline 2024 7 21 9 0 0 0, toTimeline 2024 7 21 9 0 0 0 + 90 * usPerMinute)
    ∧ resolveWindow 5 (Json.num 90) Json.null (Json.str "2024-07-21 10:30")
      = .ok (toTimeline 2024 7 21 10 30 0 0 - 90 * usPerMinute, toTimeline 2024 7 21 10 30 0 0)
    ∧ resolveWindow 5 (Json.num 90) Json.null Json.null = .ok (5, 5 + 90 * usPerMinute)
    ∧ toTimeline 2024 7 21 10 0 0 0 - toTimeline 2024 7 21 9 0 0 0 = 60 * usPerMinute := by
  have h := resolveWindow_cases 5 90
  have h60 := resolveWindow_cases 0 60
  refine ⟨h.1 _ _ _ _ (by decide) (by decide) rfl rfl,
    h.2.1 _ _ (by decide) rfl, h.2.2.1 _ _ (by decide) rfl, h.2.2.2.1,
    h60.2.2.2.2.1 (Json.str "2024-07-21T09:00") _ _ (by decide) rfl⟩

/-! ### C8: serialization and nesting of the resolved window -/

/-- C8: for every successfully resolved window, `create_session` serializes
both bounds as `isoformat() + "Z"` (an ISO-8601 timestamp with a trailing
UTC designator), places them — together with `title` and `description` when
provided (truthy) — in an object nested exactly one level under the `args`
key inside the mutation's `input` variable. -/
theorem createSessionRequest_serializes (now : Int) (st title desc dur stt ett : Json)
    (s e : Int) (h : resolveWindow now dur stt ett = .ok (s, e)) :
    createSessionRequest now st title desc dur stt ett
      = .ok ⟨createSessionDoc, Json.obj [("input", Json.obj [("args", Json.obj (
          [("startTime", Json.str (pyIsoformat s ++ "Z")),
           ("endTime", Json.str (pyIsoformat e ++ "Z"))]
          ++ (if title.truthy then [("title", title)] else [])
          ++ (if desc.truthy then [("description", desc)] else [])))])]⟩
    ∧ (∃ p, pyIsoformat s ++ "Z" = p ++ "Z")
    ∧ (∃ q, pyIsoformat e ++ "Z" = q ++ "Z") := by
  refine ⟨?_, ⟨pyIsoformat s, rfl⟩, ⟨pyIsoformat e, rfl⟩⟩
  simp only [createSessionRequest, h]

/-- Witness for C8: a concrete resolution with a title and no description. -/
theorem createSessionRequest_serializes_witness :
    createSessionRequest 0 (Json.str "focus") (Json.str "Deep work") Json.null
        (Json.num 90) (Json.str "2024-07-21T09:00:00") Json.null
      = .ok ⟨createSessionDoc, Json.obj [("input", Json.obj [("args", Json.obj (
          [("startTime", Json.str (pyIsoformat (toTimeline 2024 7 21 9 0 0 0) ++ "Z")),
           ("endTime", Json.str (pyIsoformat (toTimeline 2024 7 21 10 30 0 0) ++ "Z"))]
          ++ (if (Json.str "Deep work").truthy then [("title", Json.str "Deep work")] else [])
          ++ (if Json.null.truthy then [("description", Json.null)] else [])))])]⟩ :=
  (createSessionRequest_serializes 0 (Json.str "focus") (Json.str "Deep work") Json.null
    (Json.num 90) (Json.str "2024-07-21T09:00:00") Json.null
    (toTimeline 2024 7 21 9 0 0 0) (toTimeline 2024 7 21 10 30 0 0) rfl).1

/-! ### C7: supporting lemmas for the accepted time-string forms -/

theorem digitChar_isDigit {k : Nat} (h : k < 10) : (digitChar k).isDigit = true := by
  interval_cases k <;> decide

theorem digitChar_toNat {k : Nat} (h : k < 10) : (digitChar k).toNat = 48 + k := by
  interval_cases k <;> decide

theorem digitChar_ne_Z {k : Nat} (h : k < 10) : digitChar k ≠ 'Z' := by
  interval_cases k <;> decide

theorem digitChar_ne_space {k : Nat} (h : k < 10) : digitChar k ≠ ' ' := by
  interval_cases k <;> decide

/-- The head of the remaining input is not a digit (or the input is empty). -/
def headNotDigit : List Char → Prop
  | [] => True
  | c :: _ => c.isDigit = false

theorem headNotDigit_cons {c : Char} (h : c.isDigit = false) (l : List Char) :
    headNotDigit (c :: l) := h

theorem spanDigits_all (ds rest : List Char) (hds : ∀ c ∈ ds, c.isDigit = true)
    (hrest : headNotDigit rest) : spanDigits (ds ++ rest) = (ds, rest) := by
  induction ds with
  | nil =>
      cases rest with
      | nil => rfl
      | cons c cs => simp [spanDigits, show c.isDigit = false from hrest]
  | cons c cs ih =>
      have hc : c.isDigit = true := hds c (by simp)
      simp [spanDigits, hc, ih (fun a ha => hds a (by simp [ha]))]

theorem pad2_length (n : Nat) : (pad2 n).length = 2 := rfl

theorem pad4_length (n : Nat) : (pad4 n).length = 4 := rfl

theorem pad2_digits {n : Nat} (h : n < 100) : ∀ c ∈ pad2 n, c.isDigit = true := by
  intro c hc
  simp only [pad2, List.mem_cons, List.not_mem_nil, or_false] at hc
  rcases hc with rfl | rfl
  · exact digitChar_isDigit (by omega)
  · exact digitChar_isDigit (Nat.mod_lt _ (by norm_num))

theorem pad4_digits {n : Nat} (h : n < 10000) : ∀ c ∈ pad4 n, c.isDigit = true := by
  intro c hc
  simp only [pad4, List.mem_cons, List.not_mem_nil, or_false] at hc
  rcases hc with rfl | rfl | rfl | rfl
  · exact digitChar_isDigit (by omega)
  · exact digitChar_isDigit (Nat.mod_lt _ (by norm_num))
  · exact digitChar_isDigit (Nat.mod_lt _ (by norm_num))
  · exact digitChar_isDigit (Nat.mod_lt _ (by norm_num))

theorem pad2_no_Z {n : Nat} (h : n < 100) : ∀ c ∈ pad2 n, c ≠ 'Z' := by
  intro c hc
  simp only [pad2, List.mem_cons, List.not_mem_nil, or_false] at hc
  rcases hc with rfl | rfl
  · exact digitChar_ne_Z (by omega)
  · exact digitChar_ne_Z (Nat.mod_lt _ (by norm_num))

theorem pad4_no_Z {n : Nat} (h : n < 10000) : ∀ c ∈ pad4 n, c ≠ 'Z' := by
  intro c hc
  simp only [pad4, List.mem_cons, List.not_mem_nil, or_false] at hc
  rcases hc with rfl | rfl | rfl | rfl
  · exact digitChar_ne_Z (by omega)
  · exact digitChar_ne_Z (Nat.mod_lt _ (by norm_num))
  · exact digitChar_ne_Z (Nat.mod_lt _ (by norm_num))
  · exact digitChar_ne_Z (Nat.mod_lt _ (by norm_num))

theorem natOfDigits_pad2 {n : Nat} (h : n < 100) : natOfDigits (pad2 n) = n := by
  simp only [natOfDigits, pad2, List.foldl,
    digitChar_toNat (show n / 10 < 10 by omega),
    digitChar_toNat (show n % 10 < 10 from Nat.mod_lt _ (by norm_num))]
  omega

theorem natOfDigits_pad4 {n : Nat} (h : n < 10000) : natOfDigits (pad4 n) = n := by
  simp only [natOfDigits, pad4, List.foldl,
    digitChar_toNat (show n / 1000 < 10 by omega),
    digitChar_toNat (show n / 100 % 10 < 10 from Nat.mod_lt _ (by norm_num)),
    digitChar_toNat (show n / 10 % 10 < 10 from Nat.mod_lt _ (by norm_num)),
    digitChar_toNat (show n % 10 < 10 from Nat.mod_lt _ (by norm_num))]
  omega

theorem pFix4_pad {y : Nat} (h : y < 10000) (rest : List Char) (hrest : headNotDigit rest) :
    pFix4 (pad4 y ++ rest) = some (y, rest) := by
  simp only [pFix4]
  rw [spanDigits_all _ _ (pad4_digits h) hrest]
  simp [pad4_length, natOfDigits_pad4 h]

theorem pN2_pad {lo hi v : Nat} (hv : v < 100) (h1 : lo ≤ v) (h2 : v ≤ hi)
    (rest : List Char) (hrest : headNotDigit rest) :
    pN2 lo hi (pad2 v ++ rest) = some (v, rest) := by
  simp only [pN2]
  rw [spanDigits_all _ _ (pad2_digits hv) hrest]
  simp [pad2_length, natOfDigits_pad2 hv, h1, h2]

theorem pDay_pad {v : Nat} (hv : v < 100) (h1 : 1 ≤ v) (h2 : v ≤ 31)
    (rest : List Char) (hrest : headNotDigit rest) :
    pDay (pad2 v ++ rest) = some (v, rest) := by
  have hne : digitChar (v / 10) ≠ ' ' := digitChar_ne_space (by omega)
  rw [pDay.eq_def]
  split
  next cs' heq =>
      exact absurd (List.head_eq_of_cons_eq heq) hne
  next => exact pN2_pad hv h1 h2 rest hrest

/-- The `YYYY-MM-DD` character block of the claim's forms. -/
def dateChars (y m d : Nat) : List Char := pad4 y ++ '-' :: (pad2 m ++ '-' :: pad2 d)

theorem pLit_cons (c : Char) (xs : List Char) : pLit c (c :: xs) = some xs := by
  simp [pLit]

theorem pDate_pad {y m d : Nat} (hy : y < 10000) (hm1 : 1 ≤ m) (hm2 : m ≤ 12)
    (hd1 : 1 ≤ d) (hd2 : d ≤ 31) (rest : List Char) (hrest : headNotDigit rest) :
    pDate (dateChars y m d ++ rest) = some (y, m, d, rest) := by
  have hnd1 : headNotDigit ('-' :: (pad2 m ++ ('-' :: (pad2 d ++ rest)))) :=
    headNotDigit_cons (by decide) _
  have hnd2 : headNotDigit ('-' :: (pad2 d ++ rest)) := headNotDigit_cons (by decide) _
  have hshape : dateChars y m d ++ rest
      = pad4 y ++ ('-' :: (pad2 m ++ ('-' :: (pad2 d ++ rest)))) := by
    simp [dateChars, List.append_assoc]
  rw [hshape]
  simp only [pDate,
    pFix4_pad hy ('-' :: (pad2 m ++ ('-' :: (pad2 d ++ rest)))) hnd1,
    pLit_cons,
    pN2_pad (show m < 100 by omega) hm1 hm2 ('-' :: (pad2 d ++ rest)) hnd2,
    pDay_pad (show d < 100 by omega) hd1 hd2 rest hrest]

/-- The `YYYY-MM-DD<sep>HH:MM:SS` character block of the claim's forms. -/
def stampSec (sep : Char) (y m d h mi s : Nat) : List Char :=
  dateChars y m d ++ sep :: (pad2 h ++ ':' :: (pad2 mi ++ ':' :: pad2 s))

/-- The `YYYY-MM-DD<sep>HH:MM` character block of the claim's forms. -/
def stampMin (sep : Char) (y m d h mi : Nat) : List Char :=
  dateChars y m d ++ sep :: (pad2 h ++ ':' :: pad2 mi)

theorem daysInMonth_le (y m : Nat) : daysInMonth y m ≤ 31 := by
  unfold daysInMonth
  split
  · split <;> omega
  · split <;> omega

theorem pN2_pad_nil {lo hi v : Nat} (hv : v < 100) (h1 : lo ≤ v) (h2 : v ≤ hi) :
    pN2 lo hi (pad2 v) = some (v, []) := by
  have := pN2_pad hv h1 h2 [] trivial
  simpa using this

theorem pStamp_sec (sep : Char) (hsep : sep.isDigit = false) {y m d h mi s : Nat}
    (hy : y < 10000) (hm1 : 1 ≤ m) (hm2 : m ≤ 12) (hd1 : 1 ≤ d) (hd2 : d ≤ 31)
    (hh : h ≤ 23) (hmi : mi ≤ 59) (hs : s ≤ 61) :
    pStamp sep true false (stampSec sep y m d h mi s) = some (y, m, d, h, mi, s) := by
  simp only [stampSec, pStamp,
    pDate_pad hy hm1 hm2 hd1 hd2 (sep :: (pad2 h ++ ':' :: (pad2 mi ++ ':' :: pad2 s)))
      (headNotDigit_cons hsep _),
    pLit_cons,
    pN2_pad (show h < 100 by omega) (Nat.zero_le _) hh (':' :: (pad2 mi ++ ':' :: pad2 s))
      (headNotDigit_cons (by decide) _),
    pN2_pad (show mi < 100 by omega) (Nat.zero_le _) hmi (':' :: pad2 s)
      (headNotDigit_cons (by decide) _),
    pN2_pad_nil (show s < 100 by omega) (Nat.zero_le _) hs]
  simp

theorem pStamp_min (sep : Char) (hsep : sep.isDigit = false) {y m d h mi : Nat}
    (hy : y < 10000) (hm1 : 1 ≤ m) (hm2 : m ≤ 12) (hd1 : 1 ≤ d) (hd2 : d ≤ 31)
    (hh : h ≤ 23) (hmi : mi ≤ 59) :
    pStamp sep false false (stampMin sep y m d h mi) = some (y, m, d, h, mi, 0) := by
  simp only [stampMin, pStamp,
    pDate_pad hy hm1 hm2 hd1 hd2 (sep :: (pad2 h ++ ':' :: pad2 mi))
      (headNotDigit_cons hsep _),
    pLit_cons,
    pN2_pad (show h < 100 by omega) (Nat.zero_le _) hh (':' :: pad2 mi)
      (headNotDigit_cons (by decide) _),
    pN2_pad_nil (show mi < 100 by omega) (Nat.zero_le _) hmi]
  simp

theorem pStamp_wrong_sep (sep sep' : Char) (wsec wz : Bool) (hne : sep' ≠ sep)
    (hsd : sep'.isDigit = false) {y m d : Nat} (hy : y < 10000) (hm1 : 1 ≤ m)
    (hm2 : m ≤ 12) (hd1 : 1 ≤ d) (hd2 : d ≤ 31) (t : List Char) :
    pStamp sep wsec wz (dateChars y m d ++ sep' :: t) = none := by
  simp only [pStamp, pDate_pad hy hm1 hm2 hd1 hd2 (sep' :: t) (headNotDigit_cons hsd t)]
  simp [pLit, hne]

theorem pStamp_missing_sec (sep : Char) (wz : Bool) (hsep : sep.isDigit = false)
    {y m d h mi : Nat} (hy : y < 10000) (hm1 : 1 ≤ m) (hm2 : m ≤ 12) (hd1 : 1 ≤ d)
    (hd2 : d ≤ 31) (hh : h ≤ 23) (hmi : mi ≤ 59) :
    pStamp sep true wz (stampMin sep y m d h mi) = none := by
  simp only [stampMin, pStamp,
    pDate_pad hy hm1 hm2 hd1 hd2 (sep :: (pad2 h ++ ':' :: pad2 mi))
      (headNotDigit_cons hsep _),
    pLit_cons,
    pN2_pad (show h < 100 by omega) (Nat.zero_le _) hh (':' :: pad2 mi)
      (headNotDigit_cons (by decide) _),
    pN2_pad_nil (show mi < 100 by omega) (Nat.zero_le _) hmi]
  simp [pLit]

theorem tryFmt_none_of_pStamp_none (sep : Char) (ws wz : Bool) (cs : List Char)
    (h : pStamp sep ws wz cs = none) : tryFmt sep ws wz cs = none := by
  simp [tryFmt, h]

theorem tryFmt_sec_ok (sep : Char) (hsep : sep.isDigit = false) {y m d h mi s : Nat}
    (hy1 : 1 ≤ y) (hy2 : y ≤ 9999) (hm1 : 1 ≤ m) (hm2 : m ≤ 12) (hd1 : 1 ≤ d)
    (hd2 : d ≤ daysInMonth y m) (hh : h ≤ 23) (hmi : mi ≤ 59) (hs : s ≤ 59) :
    tryFmt sep true false (stampSec sep y m d h mi s)
      = some (toTimeline y m d h mi s 0) := by
  have hd31 : d ≤ 31 := le_trans hd2 (daysInMonth_le y m)
  simp only [tryFmt,
    pStamp_sec sep hsep (show y < 10000 by omega) hm1 hm2 hd1 hd31 hh hmi
      (show s ≤ 61 by omega), mkDatetime]
  rw [if_pos ⟨hy1, hy2, hm1, hm2, hd1, hd2, hh, hmi, hs, by norm_num⟩]

theorem tryFmt_min_ok (sep : Char) (hsep : sep.isDigit = false) {y m d h mi : Nat}
    (hy1 : 1 ≤ y) (hy2 : y ≤ 9999) (hm1 : 1 ≤ m) (hm2 : m ≤ 12) (hd1 : 1 ≤ d)
    (hd2 : d ≤ daysInMonth y m) (hh : h ≤ 23) (hmi : mi ≤ 59) :
    tryFmt sep false false (stampMin sep y m d h mi)
      = some (toTimeline y m d h mi 0 0) := by
  have hd31 : d ≤ 31 := le_trans hd2 (daysInMonth_le y m)
  simp only [tryFmt,
    pStamp_min sep hsep (show y < 10000 by omega) hm1 hm2 hd1 hd31 hh hmi, mkDatetime]
  rw [if_pos ⟨hy1, hy2, hm1, hm2, hd1, hd2, hh, hmi, by norm_num, by norm_num⟩]

theorem tryFormats_T_sec {y m d h mi s : Nat} (hy1 : 1 ≤ y) (hy2 : y ≤ 9999)
    (hm1 : 1 ≤ m) (hm2 : m ≤ 12) (hd1 : 1 ≤ d) (hd2 : d ≤ daysInMonth y m)
    (hh : h ≤ 23) (hmi : mi ≤ 59) (hs : s ≤ 59) :
    tryFormats (stampSec 'T' y m d h mi s) = some (toTimeline y m d h mi s 0) := by
  simp only [tryFormats,
    tryFmt_sec_ok 'T' (by decide) hy1 hy2 hm1 hm2 hd1 hd2 hh hmi hs]

theorem tryFormats_sp_sec {y m d h mi s : Nat} (hy1 : 1 ≤ y) (hy2 : y ≤ 9999)
    (hm1 : 1 ≤ m) (hm2 : m ≤ 12) (hd1 : 1 ≤ d) (hd2 : d ≤ daysInMonth y m)
    (hh : h ≤ 23) (hmi : mi ≤ 59) (hs : s ≤ 59) :
    tryFormats (stampSec ' ' y m d h mi s) = some (toTimeline y m d h mi s 0) := by
  have hd31 : d ≤ 31 := le_trans hd2 (daysInMonth_le y m)
  have hf1 : tryFmt 'T' true false (stampSec ' ' y m d h mi s) = none :=
    tryFmt_none_of_pStamp_none _ _ _ _
      (pStamp_wrong_sep 'T' ' ' true false (by decide) (by decide)
        (show y < 10000 by omega) hm1 hm2 hd1 hd31 _)
  simp only [tryFormats, hf1,
    tryFmt_sec_ok ' ' (by decide) hy1 hy2 hm1 hm2 hd1 hd2 hh hmi hs]

theorem tryFormats_T_min {y m d h mi : Nat} (hy1 : 1 ≤ y) (hy2 : y ≤ 9999)
    (hm1 : 1 ≤ m) (hm2 : m ≤ 12) (hd1 : 1 ≤ d) (hd2 : d ≤ daysInMonth y m)
    (hh : h ≤ 23) (hmi : mi ≤ 59) :
    tryFormats (stampMin 'T' y m d h mi) = some (toTimeline y m d h mi 0 0) := by
  have hd31 : d ≤ 31 := le_trans hd2 (daysInMonth_le y m)
  have hf1 : tryFmt 'T' true false (stampMin 'T' y m d h mi) = none :=
    tryFmt_none_of_pStamp_none _ _ _ _
      (pStamp_missing_sec 'T' false (by decide) (show y < 10000 by omega)
        hm1 hm2 hd1 hd31 hh hmi)
  have hf2 : tryFmt ' ' true false (stampMin 'T' y m d h mi) = none :=
    tryFmt_none_of_pStamp_none _ _ _ _
      (pStamp_wrong_sep ' ' 'T' true false (by decide) (by decide)
        (show y < 10000 by omega) hm1 hm2 hd1 hd31 _)
  simp only [tryFormats, hf1, hf2,
    tryFmt_min_ok 'T' (by decide) hy1 hy2 hm1 hm2 hd1 hd2 hh hmi]

theorem tryFormats_sp_min {y m d h mi : Nat} (hy1 : 1 ≤ y) (hy2 : y ≤ 9999)
    (hm1 : 1 ≤ m) (hm2 : m ≤ 12) (hd1 : 1 ≤ d) (hd2 : d ≤ daysInMonth y m)
    (hh : h ≤ 23) (hmi : mi ≤ 59) :
    tryFormats (stampMin ' ' y m d h mi) = some (toTimeline y m d h mi 0 0) := by
  have hd31 : d ≤ 31 := le_trans hd2 (daysInMonth_le y m)
  have hf1 : tryFmt 'T' true false (stampMin ' ' y m d h mi) = none :=
    tryFmt_none_of_pStamp_none _ _ _ _
      (pStamp_wrong_sep 'T' ' ' true false (by decide) (by decide)
        (show y < 10000 by omega) hm1 hm2 hd1 hd31 _)
  have hf2 : tryFmt ' ' true false (stampMin ' ' y m d h mi) = none :=
    tryFmt_none_of_pStamp_none _ _ _ _
      (pStamp_missing_sec ' ' false (by decide) (show y < 10000 by omega)
        hm1 hm2 hd1 hd31 hh hmi)
  have hf3 : tryFmt 'T' false false (stampMin ' ' y m d h mi) = none :=
    tryFmt_none_of_pStamp_none _ _ _ _
      (pStamp_wrong_sep 'T' ' ' false false (by decide) (by decide)
        (show y < 10000 by omega) hm1 hm2 hd1 hd31 _)
  simp only [tryFormats, hf1, hf2, hf3,
    tryFmt_min_ok ' ' (by decide) hy1 hy2 hm1 hm2 hd1 hd2 hh hmi]

theorem stripZ_mk_eq (l : List Char) (h : ∀ c ∈ l, c ≠ 'Z') : stripZ ⟨l⟩ = ⟨l⟩ := by
  simp only [stripZ]
  congr 1
  exact List.filter_eq_self.mpr (fun a ha => by simp [h a ha])

theorem stripZ_append_Z (l : List Char) (h : ∀ c ∈ l, c ≠ 'Z') :
    stripZ ⟨l ++ ['Z']⟩ = ⟨l⟩ := by
  simp only [stripZ]
  rw [List.filter_append]
  have h2 : List.filter (fun c => decide (c ≠ 'Z')) ['Z'] = [] := by decide
  rw [h2, List.append_nil]
  congr 1
  exact List.filter_eq_self.mpr (fun a ha => by simp [h a ha])

theorem stampSec_no_Z {sep : Char} (hsep : sep ≠ 'Z') {y m d h mi s : Nat}
    (hy : y < 10000) (hm : m < 100) (hd : d < 100) (hh : h < 100) (hmi : mi < 100)
    (hs : s < 100) : ∀ c ∈ stampSec sep y m d h mi s, c ≠ 'Z' := by
  intro c hc
  simp only [stampSec, dateChars, List.append_assoc, List.cons_append, List.mem_append,
    List.mem_cons] at hc
  casesm* _ ∨ _
  all_goals
    first
    | exact pad4_no_Z hy c (by assumption)
    | exact pad2_no_Z hm c (by assumption)
    | exact pad2_no_Z hd c (by assumption)
    | exact pad2_no_Z hh c (by assumption)
    | exact pad2_no_Z hmi c (by assumption)
    | exact pad2_no_Z hs c (by assumption)
    | (subst_vars; first | decide | exact hsep)
    | simp_all

theorem stampMin_no_Z {sep : Char} (hsep : sep ≠ 'Z') {y m d h mi : Nat}
    (hy : y < 10000) (hm : m < 100) (hd : d < 100) (hh : h < 100) (hmi : mi < 100) :
    ∀ c ∈ stampMin sep y m d h mi, c ≠ 'Z' := by
  intro c hc
  simp only [stampMin, dateChars, List.append_assoc, List.cons_append, List.mem_append,
    List.mem_cons] at hc
  casesm* _ ∨ _
  all_goals
    first
    | exact pad4_no_Z hy c (by assumption)
    | exact pad2_no_Z hm c (by assumption)
    | exact pad2_no_Z hd c (by assumption)
    | exact pad2_no_Z hh c (by assumption)
    | exact pad2_no_Z hmi c (by assumption)
    | (subst_vars; first | decide | exact hsep)
    | simp_all

/-! ### C7: the accepted time-string forms -/

/-- C7: `parse_time_string` accepts every well-formed timestamp in the forms
`YYYY-MM-DDTHH:MM:SS`, `YYYY-MM-DD HH:MM:SS`, `YYYY-MM-DDTHH:MM`,
`YYYY-MM-DD HH:MM`, each also with a trailing UTC designator `Z`, returning
the corresponding datetime; and on any string it either succeeds or fails
with the format error `Cannot parse time string: ...` — it never guesses. -/
theorem parse_time_string_accepts {y m d h mi s : Nat} (hy1 : 1 ≤ y) (hy2 : y ≤ 9999)
    (hm1 : 1 ≤ m) (hm2 : m ≤ 12) (hd1 : 1 ≤ d) (hd2 : d ≤ daysInMonth y m)
    (hh : h ≤ 23) (hmi : mi ≤ 59) (hs : s ≤ 59) :
    (parse_time_string ⟨stampSec 'T' y m d h mi s⟩ = .ok (toTimeline y m d h mi s 0))
    ∧ (parse_time_string ⟨stampSec ' ' y m d h mi s⟩ = .ok (toTimeline y m d h mi s 0))
    ∧ (parse_time_string ⟨stampMin 'T' y m d h mi⟩ = .ok (toTimeline y m d h mi 0 0))
    ∧ (parse_time_string ⟨stampMin ' ' y m d h mi⟩ = .ok (toTimeline y m d h mi 0 0))
    ∧ (parse_time_string ⟨stampSec 'T' y m d h mi s ++ ['Z']⟩
        = .ok (toTimeline y m d h mi s 0))
    ∧ (parse_time_string ⟨stampSec ' ' y m d h mi s ++ ['Z']⟩
        = .ok (toTimeline y m d h mi s 0))
    ∧ (parse_time_string ⟨stampMin 'T' y m d h mi ++ ['Z']⟩
        = .ok (toTimeline y m d h mi 0 0))
    ∧ (parse_time_string ⟨stampMin ' ' y m d h mi ++ ['Z']⟩
        = .ok (toTimeline y m d h mi 0 0))
    ∧ (∀ str : String, (∃ t, parse_time_string str = .ok t)
        ∨ parse_time_string str = .error ("Cannot parse time string: " ++ str)) := by
  have hd31 : d ≤ 31 := le_trans hd2 (daysInMonth_le y m)
  have hzT : ∀ c ∈ stampSec 'T' y m d h mi s, c ≠ 'Z' :=
    stampSec_no_Z (by decide) (by omega) (by omega) (by omega) (by omega) (by omega)
      (by omega)
  have hzS : ∀ c ∈ stampSec ' ' y m d h mi s, c ≠ 'Z' :=
    stampSec_no_Z (by decide) (by omega) (by omega) (by omega) (by omega) (by omega)
      (by omega)
  have hzT2 : ∀ c ∈ stampMin 'T' y m d h mi, c ≠ 'Z' :=
    stampMin_no_Z (by decide) (by omega) (by omega) (by omega) (by omega) (by omega)
  have hzS2 : ∀ c ∈ stampMin ' ' y m d h mi, c ≠ 'Z' :=
    stampMin_no_Z (by decide) (by omega) (by omega) (by omega) (by omega) (by omega)
  refine ⟨?_, ?_, ?_, ?_, ?_, ?_, ?_, ?_, ?_⟩
  · simp only [parse_time_string, stripZ_mk_eq _ hzT,
      tryFormats_T_sec hy1 hy2 hm1 hm2 hd1 hd2 hh hmi hs]
  · simp only [parse_time_string, stripZ_mk_eq _ hzS,
      tryFormats_sp_sec hy1 hy2 hm1 hm2 hd1 hd2 hh hmi hs]
  · simp only [parse_time_string, stripZ_mk_eq _ hzT2,
      tryFormats_T_min hy1 hy2 hm1 hm2 hd1 hd2 hh hmi]
  · simp only [parse_time_string, stripZ_mk_eq _ hzS2,
      tryFormats_sp_min hy1 hy2 hm1 hm2 hd1 hd2 hh hmi]
  · simp only [parse_time_string, stripZ_append_Z _ hzT,
      tryFormats_T_sec hy1 hy2 hm1 hm2 hd1 hd2 hh hmi hs]
  · simp only [parse_time_string, stripZ_append_Z _ hzS,
      tryFormats_sp_sec hy1 hy2 hm1 hm2 hd1 hd2 hh hmi hs]
  · simp only [parse_time_string, stripZ_append_Z _ hzT2,
      tryFormats_T_min hy1 hy2 hm1 hm2 hd1 hd2 hh hmi]
  · simp only [parse_time_string, stripZ_append_Z _ hzS2,
      tryFormats_sp_min hy1 hy2 hm1 hm2 hd1 hd2 hh hmi]
  · intro str
    rcases h1 : tryFormats ((stripZ str).data) with _ | t
    · rcases h2 : fromiso ((stripZ str).data) with _ | t
      · right; simp [parse_time_string, h1, h2]
      · left; exact ⟨t, by simp [parse_time_string, h1, h2]⟩
    · left; exact ⟨t, by simp [parse_time_string, h1]⟩

/-- Witness for C7 at the concrete timestamp 2024-07-21 09:30:05. -/
theorem parse_time_string_accepts_witness :
    parse_time_string ⟨stampSec 'T' 2024 7 21 9 30 5⟩
      = .ok (toTimeline 2024 7 21 9 30 5 0)
    ∧ parse_time_string ⟨stampMin ' ' 2024 7 21 9 30 ++ ['Z']⟩
      = .ok (toTimeline 2024 7 21 9 30 0 0)
    ∧ ((∃ t, parse_time_string ("not-a-time") = .ok t)
        ∨ parse_time_string ("not-a-time")
          = .error ("Cannot parse time string: " ++ "not-a-time")) := by
  have h := @parse_time_string_accepts 2024 7 21 9 30 5
    (by decide) (by decide) (by decide) (by decide) (by decide)
    (by decide) (by decide) (by decide) (by decide)
  exact ⟨h.1, h.2.2.2.2.2.2.2.1, h.2.2.2.2.2.2.2.2 ("not-a-time")⟩

/-! ### C2: the create_session validation gate -/

theorem strStarts_append_left {a : String} {p : String} (h : strStarts a p) (b : String) :
    strStarts (a ++ b) p := by
  obtain ⟨r, rfl⟩ := h
  exact ⟨r ++ b, by simp [String.append_assoc]⟩

theorem durCheck_num (n : Int) (hn : n ≠ 0) :
    durCheck (Json.num n) = .ok (decide (n < 5) || decide (n > 480)) := by
  have hnt : (Json.num n).truthy = true := by simp [Json.truthy, hn]
  simp [durCheck, hnt, durOutOfRange]

theorem isEmpty_append_false_left {α : Type} (A B : List α) (h : A.isEmpty = false) :
    (A ++ B).isEmpty = false := by
  cases A <;> simp_all [List.isEmpty]

theorem isEmpty_append_false_right {α : Type} (A B : List α) (h : B.isEmpty = false) :
    (A ++ B).isEmpty = false := by
  cases A <;> cases B <;> simp_all [List.isEmpty]

theorem validate_eval (fs : List (String × Json)) (b3 : Bool)
    (hdur : durCheck ((jfind fs "duration_minutes").getD .null) = .ok b3) :
    validate_session_params (Json.obj fs)
      = (let b1 := !((jfind fs "start_time").getD .null).truthy
            && !((jfind fs "end_time").getD .null).truthy
         let b2 := !((jfind fs "title").getD .null).truthy
         let issues := (if b1 then ["开始时间和结束时间都未指定"] else [])
           ++ (if b2 then ["会话标题未指定"] else [])
           ++ (if b3 then ["持续时间 " ++ ((jfind fs "duration_minutes").getD .null).pyStr
                ++ " 分钟可能不合理"] else [])
         let suggestions := (if b1 then
             ["• 指定开始时间 (如: start_time=\x272025-07-21 14:00\x27)",
              "• 或指定结束时间 (如: end_time=\x272025-07-21 15:30\x27)"] else [])
           ++ (if b2 then ["• 添加标题 (如: title=\x27专注工作\x27)"] else [])
           ++ (if b3 then ["• 建议持续时间在 5-480 分钟之间"] else [])
         if issues.isEmpty then .ok (false, "")
         else .ok (true, buildConfirmMsg issues suggestions fs)) := by
  simp only [validate_session_params, hdur]

theorem buildConfirmMsg_starts (i s : List String) (fs : List (String × Json)) :
    strStarts (buildConfirmMsg i s fs) "[CONFIRM]" := by
  unfold buildConfirmMsg
  repeat' apply strStarts_append_left
  exact ⟨" 创建会话前需要确认以下信息：\n\n", by decide⟩

/-- C2 (amended): the `create_session` handler's soft validation gate.  When
start and end time are both missing (falsy), or the title is missing, or a
provided `duration_minutes` is a *nonzero* number outside `[5, 480]` — and
the provided duration is absent or numeric, so the comparison itself does not
raise — the handler returns the `[CONFIRM]` message listing the issues,
suggested fixes and the echoed arguments, and performs zero client calls.
When none of these flags fire (a provided duration of `0`, being falsy in
Python, is treated as fine), validation passes and the handler proceeds to
issue the one `createSession` client call. -/
theorem create_session_gate (now : Int) (o : Oracle) (fs : List (String × Json)) :
    (((¬((jfind fs "start_time").getD .null).truthy = true
        ∧ ¬((jfind fs "end_time").getD .null).truthy = true)
      ∨ ¬((jfind fs "title").getD .null).truthy = true
      ∨ (∃ n : Int, (jfind fs "duration_minutes").getD .null = Json.num n ∧ n ≠ 0
          ∧ (n < 5 ∨ 480 < n))) →
      ((jfind fs "duration_minutes").getD .null = Json.null
        ∨ ∃ n : Int, (jfind fs "duration_minutes").getD .null = Json.num n) →
      ∃ msg, validate_session_params (Json.obj fs) = .ok (true, msg)
        ∧ strStarts msg "[CONFIRM]"
        ∧ create_session_handler now o (Json.obj fs) = (msg, []))
    ∧ ((((jfind fs "start_time").getD .null).truthy = true
         ∨ ((jfind fs "end_time").getD .null).truthy = true) →
       ((jfind fs "title").getD .null).truthy = true →
       ((jfind fs "duration_minutes").getD .null = Json.null
         ∨ ∃ n : Int, (jfind fs "duration_minutes").getD .null = Json.num n
             ∧ (n = 0 ∨ (5 ≤ n ∧ n ≤ 480))) →
       validate_session_params (Json.obj fs) = .ok (false, "")
       ∧ ∀ req, createSessionRequest now
            ((jfind fs "session_type").getD (.str "focus"))
            ((jfind fs "title").getD .null)
            ((jfind fs "description").getD .null)
            ((jfind fs "duration_minutes").getD (.num 90))
            ((jfind fs "start_time").getD .null)
            ((jfind fs "end_time").getD .null) = .ok req →
          (create_session_handler now o (Json.obj fs)).2
            = [.createSession req.vars]) := by
  constructor
  · intro H Hdur
    have hex : ∃ b3, durCheck ((jfind fs "duration_minutes").getD .null) = .ok b3 := by
      rcases Hdur with hD | ⟨n, hD⟩
      · exact ⟨false, by rw [hD]; rfl⟩
      · rw [hD]
        by_cases hn : n = 0
        · subst hn; exact ⟨false, rfl⟩
        · exact ⟨_, durCheck_num n hn⟩
    obtain ⟨b3, hdc⟩ := hex
    have hor3 : (!((jfind fs "start_time").getD .null).truthy
          && !((jfind fs "end_time").getD .null).truthy) = true
        ∨ (!((jfind fs "title").getD .null).truthy) = true ∨ b3 = true := by
      rcases H with ⟨h1, h2⟩ | h2 | ⟨n, hD, hn0, hout⟩
      · left
        simp only [Bool.not_eq_true] at h1 h2
        simp [h1, h2]
      · right; left
        simp only [Bool.not_eq_true] at h2
        simp [h2]
      · right; right
        have h3 := hdc
        rw [hD, durCheck_num n hn0] at h3
        have hb3 : b3 = (decide (n < 5) || decide (n > 480)) := (Except.ok.inj h3).symm
        rcases hout with h | h <;> simp [hb3, h]
    have hval := validate_eval fs b3 hdc
    simp only [] at hval
    have hie : ((if (!((jfind fs "start_time").getD .null).truthy
            && !((jfind fs "end_time").getD .null).truthy) then
            ["开始时间和结束时间都未指定"] else [])
        ++ (if (!((jfind fs "title").getD .null).truthy) then ["会话标题未指定"] else [])
        ++ (if b3 then ["持续时间 " ++ ((jfind fs "duration_minutes").getD .null).pyStr
            ++ " 分钟可能不合理"] else [])).isEmpty = false := by
      rcases hor3 with h | h | h
      · apply isEmpty_append_false_left
        apply isEmpty_append_false_left
        simp [h, List.isEmpty]
      · apply isEmpty_append_false_left
        apply isEmpty_append_false_right
        simp [h, List.isEmpty]
      · apply isEmpty_append_false_right
        simp [h, List.isEmpty]
    rw [hie] at hval
    simp only [Bool.false_eq_true, if_false] at hval
    refine ⟨_, hval, buildConfirmMsg_starts _ _ _, ?_⟩
    simp only [create_session_handler, hval]
  · intro Hst Httl Hdur
    have hb1 : (!((jfind fs "start_time").getD .null).truthy
        && !((jfind fs "end_time").getD .null).truthy) = false := by
      rcases Hst with h | h <;> simp [h]
    have hb2 : (!((jfind fs "title").getD .null).truthy) = false := by simp [Httl]
    have hdc : durCheck ((jfind fs "duration_minutes").getD .null) = .ok false := by
      rcases Hdur with hD | ⟨n, hD, hn⟩
      · rw [hD]; rfl
      · rw [hD]
        rcases hn with rfl | ⟨h5, h480⟩
        · rfl
        · rw [durCheck_num n (by omega)]
          have : (decide (n < 5) || decide (n > 480)) = false := by
            simp only [Bool.or_eq_false_iff, decide_eq_false_iff_not]
            constructor <;> omega
          rw [this]
    have hval := validate_eval fs false hdc
    simp only [hb1, hb2, if_false, Bool.false_eq_true, List.append_nil,
      List.isEmpty_nil, if_true, List.nil_append] at hval
    refine ⟨hval, ?_⟩
    intro req hreq
    simp only [create_session_handler, hval, Json.get]
    rw [hreq]

/-- C2 counterexample to the claim as stated: with a title, a start time and
`duration_minutes = 0` — a value outside `[5, 480]` — validation finds no
issue (Python's `if duration_minutes and ...` skips falsy `0`), no
confirmation message is returned, and the handler performs one client call. -/
theorem create_session_gate_cex :
    validate_session_params (Json.obj [("title", Json.str "t"),
        ("start_time", Json.str "2025-07-21 14:00"), ("duration_minutes", Json.num 0)])
      = .ok (false, "")
    ∧ ((0 : Int) < 5 ∨ 480 < (0 : Int))
    ∧ (create_session_handler 0 (fun _ => .error (.valueError "net down"))
        (Json.obj [("title", Json.str "t"), ("start_time", Json.str "2025-07-21 14:00"),
          ("duration_minutes", Json.num 0)])).2.length = 1
    ∧ (create_session_handler 0 (fun _ => .error (.valueError "net down"))
        (Json.obj [("title", Json.str "t"), ("start_time", Json.str "2025-07-21 14:00"),
          ("duration_minutes", Json.num 0)])).1
      = "[ERROR] Failed to create session: net down" :=
  ⟨rfl, by decide, rfl, rfl⟩

/-- Witness for C2 (amended): duration 3 is flagged with a `[CONFIRM]`
message and zero calls; with valid arguments the handler issues exactly the
one `createSession` request. -/
theorem create_session_gate_witness :
    (∃ msg, validate_session_params (Json.obj [("duration_minutes", Json.num 3),
          ("title", Json.str "t"), ("start_time", Json.str "2025-07-21 14:00")])
        = .ok (true, msg)
      ∧ strStarts msg "[CONFIRM]"
      ∧ create_session_handler 0 (fun _ => .error (.valueError "x"))
          (Json.obj [("duration_minutes", Json.num 3), ("title", Json.str "t"),
            ("start_time", Json.str "2025-07-21 14:00")]) = (msg, []))
    ∧ validate_session_params (Json.obj [("title", Json.str "t"),
          ("start_time", Json.str "2025-07-21 14:00")]) = .ok (false, "")
    ∧ (create_session_handler 0 (fun _ => .error (.valueError "x"))
        (Json.obj [("title", Json.str "t"), ("start_time", Json.str "2025-07-21 14:00")])).2
      = [.createSession (Json.obj [("input", Json.obj [("args", Json.obj
          [("startTime", Json.str "2025-07-21T14:00:00Z"),
           ("endTime", Json.str "2025-07-21T15:30:00Z"),
           ("title", Json.str "t")])])])] := by
  refine ⟨?_, ?_, ?_⟩
  · exact (create_session_gate 0 (fun _ => .error (.valueError "x"))
      [("duration_minutes", Json.num 3), ("title", Json.str "t"),
       ("start_time", Json.str "2025-07-21 14:00")]).1
      (Or.inr (Or.inr ⟨3, rfl, by decide, by decide⟩)) (Or.inr ⟨3, rfl⟩)
  · exact ((create_session_gate 0 (fun _ => .error (.valueError "x"))
      [("title", Json.str "t"), ("start_time", Json.str "2025-07-21 14:00")]).2
      (Or.inl (by decide)) (by decide) (Or.inl rfl)).1
  · exact ((create_session_gate 0 (fun _ => .error (.valueError "x"))
      [("title", Json.str "t"), ("start_time", Json.str "2025-07-21 14:00")]).2
      (Or.inl (by decide)) (by decide) (Or.inl rfl)).2
      ⟨createSessionDoc, Json.obj [("input", Json.obj [("args", Json.obj
          [("startTime", Json.str "2025-07-21T14:00:00Z"),
           ("endTime", Json.str "2025-07-21T15:30:00Z"),
           ("title", Json.str "t")])])]⟩ rfl

/-! ### C3: the stop_session_timer two-step confirmation machine -/

theorem truthy_obj_cons (a : String × Json) (l : List (String × Json)) :
    (Json.obj (a :: l)).truthy = true := rfl

theorem truthy_null_eq : Json.null.truthy = false := rfl

/-- C3: with `confirm` falsy and an active current session, the handler
returns the `[CONFIRM]` text embedding that session's id and title plus the
re-invoke-with-`confirm=true` instruction, after only the current-session
query (no mutation); with `confirm` falsy and no active session it reports
that directly; with `confirm` truthy it issues exactly one stop mutation and
on a successful response returns the `[SUCCESS]` text with the session id and
end time. -/
theorem stop_session_timer_confirmation :
    (∀ (o : Oracle) (fs : List (String × Json)) (sid ttl stt : String),
      ((jfind fs "confirm").getD (.bool false)).truthy = false →
      o .getCurrentSession = .ok (Json.obj [("data", Json.obj [("currentSession",
        Json.obj [("id", Json.str sid), ("title", Json.str ttl),
                  ("startTime", Json.str stt)])])]) →
      stop_session_timer_handler o (Json.obj fs)
        = ("[CONFIRM] 即将停止以下会话：\n\n" ++ "  - 会话ID: " ++ sid ++ "\n"
            ++ "  - 标题: " ++ ttl ++ "\n" ++ "  - 开始时间: " ++ stt ++ "\n\n"
            ++ "这将结束当前会话并记录使用时间。\n"
            ++ "如果确认要停止，请再次调用 stop_session_timer 并添加参数 confirm=true",
           [.getCurrentSession])
      ∧ strContains (stop_session_timer_handler o (Json.obj fs)).1 sid
      ∧ strContains (stop_session_timer_handler o (Json.obj fs)).1 ttl
      ∧ strContains (stop_session_timer_handler o (Json.obj fs)).1 "confirm=true"
      ∧ ∀ c ∈ (stop_session_timer_handler o (Json.obj fs)).2, c.isMutation = false)
    ∧ (∀ (o : Oracle) (fs : List (String × Json)),
      ((jfind fs "confirm").getD (.bool false)).truthy = false →
      o .getCurrentSession = .ok (Json.obj [("data", Json.obj [("currentSession",
        Json.null)])]) →
      stop_session_timer_handler o (Json.obj fs)
        = ("[INFO] 没有活动的会话需要停止。", [.getCurrentSession])
      ∧ ∀ c ∈ (stop_session_timer_handler o (Json.obj fs)).2, c.isMutation = false)
    ∧ (∀ (o : Oracle) (fs : List (String × Json)) (sid et : String),
      ((jfind fs "confirm").getD (.bool false)).truthy = true →
      o .stopSessionTimer = .ok (Json.obj [("data", Json.obj [("stopSessionTimer",
        Json.obj [("session", Json.obj [("id", Json.str sid),
                  ("endTime", Json.str et)])])])]) →
      stop_session_timer_handler o (Json.obj fs)
        = ("[SUCCESS] Timer stopped! Session ID: " ++ sid ++ ", End time: " ++ et,
           [.stopSessionTimer])
      ∧ List.countP (fun c => c.isMutation) (stop_session_timer_handler o (Json.obj fs)).2
          = 1) := by
  refine ⟨?_, ?_, ?_⟩
  · intro o fs sid ttl stt hconf ho
    have heq : stop_session_timer_handler o (Json.obj fs)
        = ("[CONFIRM] 即将停止以下会话：\n\n" ++ "  - 会话ID: " ++ sid ++ "\n"
            ++ "  - 标题: " ++ ttl ++ "\n" ++ "  - 开始时间: " ++ stt ++ "\n\n"
            ++ "这将结束当前会话并记录使用时间。\n"
            ++ "如果确认要停止，请再次调用 stop_session_timer 并添加参数 confirm=true",
           [.getCurrentSession]) := by
      simp [stop_session_timer_handler, Json.get, hconf, ho, stop_unconfirmed_format,
        jfind, Json.item, Json.pyStr, truthy_obj_cons]
    refine ⟨heq, ?_, ?_, ?_, ?_⟩
    · rw [heq]
      refine ⟨"[CONFIRM] 即将停止以下会话：\n\n" ++ "  - 会话ID: ",
        "\n" ++ "  - 标题: " ++ ttl ++ "\n" ++ "  - 开始时间: " ++ stt ++ "\n\n"
          ++ "这将结束当前会话并记录使用时间。\n"
          ++ "如果确认要停止，请再次调用 stop_session_timer 并添加参数 confirm=true", ?_⟩
      simp [String.append_assoc]
    · rw [heq]
      refine ⟨"[CONFIRM] 即将停止以下会话：\n\n" ++ "  - 会话ID: " ++ sid ++ "\n"
          ++ "  - 标题: ",
        "\n" ++ "  - 开始时间: " ++ stt ++ "\n\n"
          ++ "这将结束当前会话并记录使用时间。\n"
          ++ "如果确认要停止，请再次调用 stop_session_timer 并添加参数 confirm=true", ?_⟩
      simp [String.append_assoc]
    · rw [heq,
        show ("如果确认要停止，请再次调用 stop_session_timer 并添加参数 confirm=true" : String)
          = "如果确认要停止，请再次调用 stop_session_timer 并添加参数 " ++ "confirm=true"
        from by decide]
      refine ⟨"[CONFIRM] 即将停止以下会话：\n\n" ++ "  - 会话ID: " ++ sid ++ "\n"
          ++ "  - 标题: " ++ ttl ++ "\n" ++ "  - 开始时间: " ++ stt ++ "\n\n"
          ++ "这将结束当前会话并记录使用时间。\n"
          ++ "如果确认要停止，请再次调用 stop_session_timer 并添加参数 ", "", ?_⟩
      simp [String.append_assoc, strAppend_empty]
    · rw [heq]
      intro c hc
      simp only [List.mem_singleton] at hc
      subst hc
      rfl
  · intro o fs hconf ho
    have heq : stop_session_timer_handler o (Json.obj fs)
        = ("[INFO] 没有活动的会话需要停止。", [.getCurrentSession]) := by
      simp [stop_session_timer_handler, Json.get, hconf, ho, stop_unconfirmed_format,
        jfind, truthy_null_eq]
    refine ⟨heq, ?_⟩
    rw [heq]
    intro c hc
    simp only [List.mem_singleton] at hc
    subst hc
    rfl
  · intro o fs sid et hconf ho
    have heq : stop_session_timer_handler o (Json.obj fs)
        = ("[SUCCESS] Timer stopped! Session ID: " ++ sid ++ ", End time: " ++ et,
           [.stopSessionTimer]) := by
      simp [stop_session_timer_handler, Json.get, hconf, ho, stop_confirmed_format,
        jget2, jfind, Json.item, Json.pyStr, Json.hasKeyE, truthy_obj_cons]
    refine ⟨heq, ?_⟩
    rw [heq]
    rfl

/-- Witness for C3: all three confirmation scenarios at concrete oracles. -/
theorem stop_session_timer_confirmation_witness :
    stop_session_timer_handler (fun c => match c with
      | .getCurrentSession => .ok (Json.obj [("data", Json.obj [("currentSession",
          Json.obj [("id", Json.str "s1"), ("title", Json.str "Deep work"),
                    ("startTime", Json.str "2025-07-21T14:00:00Z")])])])
      | _ => .error (.valueError "x")) (Json.obj [])
      = ("[CONFIRM] 即将停止以下会话：\n\n" ++ "  - 会话ID: " ++ "s1" ++ "\n"
          ++ "  - 标题: " ++ "Deep work" ++ "\n" ++ "  - 开始时间: "
          ++ "2025-07-21T14:00:00Z" ++ "\n\n" ++ "这将结束当前会话并记录使用时间。\n"
          ++ "如果确认要停止，请再次调用 stop_session_timer 并添加参数 confirm=true",
         [.getCurrentSession])
    ∧ stop_session_timer_handler (fun c => match c with
      | .getCurrentSession => .ok (Json.obj [("data", Json.obj [("currentSession",
          Json.null)])])
      | _ => .error (.valueError "x")) (Json.obj [])
      = ("[INFO] 没有活动的会话需要停止。", [.getCurrentSession])
    ∧ stop_session_timer_handler (fun c => match c with
      | .stopSessionTimer => .ok (Json.obj [("data", Json.obj [("stopSessionTimer",
          Json.obj [("session", Json.obj [("id", Json.str "s1"),
                    ("endTime", Json.str "2025-07-21T15:00:00Z")])])])])
      | _ => .error (.valueError "x")) (Json.obj [("confirm", Json.bool true)])
      = ("[SUCCESS] Timer stopped! Session ID: " ++ "s1" ++ ", End time: "
          ++ "2025-07-21T15:00:00Z", [.stopSessionTimer]) := by
  refine ⟨(stop_session_timer_confirmation.1 _ [] "s1" "Deep work"
      ("2025-07-21T14:00:00Z") (by decide) rfl).1,
    (stop_session_timer_confirmation.2.1 _ [] (by decide) rfl).1,
    (stop_session_timer_confirmation.2.2 _ [("confirm", Json.bool true)] "s1"
      ("2025-07-21T15:00:00Z") (by decide) rfl).1⟩

/-! ### C4: the dispatcher never propagates a failure -/

theorem strStarts_error_concat (t lit : String) (hlit : ∃ l2, lit = "[ERROR]" ++ l2) :
    strStarts (lit ++ t) "[ERROR]" := by
  obtain ⟨l2, rfl⟩ := hlit
  exact ⟨l2 ++ t, by simp [String.append_assoc]⟩

theorem test_connection_safe (o : Oracle) (c : ClientCall)
    (hc : c ∈ (test_connection_handler o).2) (he : ∃ e, o c = .error e) :
    strStarts (test_connection_handler o).1 "[ERROR]" := by
  have hc' : c = .testConnection := by simpa [test_connection_handler] using hc
  subst hc'
  obtain ⟨e, he⟩ := he
  simp only [test_connection_handler, he]
  exact strStarts_error_concat _ _ ⟨" Connection failed: ", by decide⟩

theorem list_projects_safe (o : Oracle) (args : Json) (c : ClientCall)
    (hc : c ∈ (list_projects_handler o args).2) (he : ∃ e, o c = .error e) :
    strStarts (list_projects_handler o args).1 "[ERROR]" := by
  cases hg : args.get "limit" (.num 10) with
  | error e => simp [list_projects_handler, hg] at hc
  | ok limit =>
      have hc' : c = .getProjects limit := by
        simpa [list_projects_handler, hg] using hc
      subst hc'
      obtain ⟨e, he⟩ := he
      simp only [list_projects_handler, hg, he]
      exact strStarts_error_concat _ _ ⟨" Failed to list projects: ", by decide⟩

theorem create_project_safe (o : Oracle) (args : Json) (c : ClientCall)
    (hc : c ∈ (create_project_handler o args).2) (he : ∃ e, o c = .error e) :
    strStarts (create_project_handler o args).1 "[ERROR]" := by
  cases hg : args.get "name" .null with
  | error e => simp [create_project_handler, hg] at hc
  | ok name =>
      by_cases ht : name.truthy = true
      · cases hg2 : args.get "emoji" .null with
        | error e => simp [create_project_handler, hg, ht, hg2] at hc
        | ok emoji =>
            have hc' : c = .createProject
                (createProjectRequest name Json.null Json.null emoji Json.null
                  Json.null).vars := by
              simpa [create_project_handler, hg, ht, hg2] using hc
            subst hc'
            obtain ⟨e, he⟩ := he
            simp only [create_project_handler, hg, ht, hg2, if_true, Bool.not_true, he]
            exact strStarts_error_concat _ _ ⟨" Failed to create project: ", by decide⟩
      · have ht' : name.truthy = false := by simpa using ht
        simp [create_project_handler, hg, ht'] at hc
  
theorem start_session_timer_safe (now : Int) (o : Oracle) (args : Json) (c : ClientCall)
    (hc : c ∈ (start_session_timer_handler now o args).2) (he : ∃ e, o c = .error e) :
    strStarts (start_session_timer_handler now o args).1 "[ERROR]" := by
  cases hg : args.get "session_type" (.str "FOCUS") with
  | error e => simp [start_session_timer_handler, hg] at hc
  | ok st =>
      have hc' : c = .startSessionTimer (startSessionTimerRequest st now).vars := by
        simpa [start_session_timer_handler, hg] using hc
      subst hc'
      obtain ⟨e, he⟩ := he
      simp only [start_session_timer_handler, hg, he]
      exact strStarts_error_concat _ _ ⟨" Failed to start timer: ", by decide⟩

theorem stop_session_timer_safe (o : Oracle) (args : Json) (c : ClientCall)
    (hc : c ∈ (stop_session_timer_handler o args).2) (he : ∃ e, o c = .error e) :
    strStarts (stop_session_timer_handler o args).1 "[ERROR]" := by
  cases hg : args.get "confirm" (.bool false) with
  | error e => simp [stop_session_timer_handler, hg] at hc
  | ok confirm =>
      by_cases ht : confirm.truthy = true
      · have hc' : c = .stopSessionTimer := by
          simpa [stop_session_timer_handler, hg, ht] using hc
        subst hc'
        obtain ⟨e, he⟩ := he
        simp only [stop_session_timer_handler, hg, ht, if_true, he]
        exact strStarts_error_concat _ _ ⟨" Failed to process stop request: ", by decide⟩
      · have ht' : confirm.truthy = false := by simpa using ht
        have hc' : c = .getCurrentSession := by
          simpa [stop_session_timer_handler, hg, ht'] using hc
        subst hc'
        obtain ⟨e, he⟩ := he
        simp only [stop_session_timer_handler, hg, ht', he, Bool.false_eq_true, if_false]
        exact strStarts_error_concat _ _ ⟨" Failed to process stop request: ", by decide⟩

theorem get_current_session_safe (o : Oracle) (c : ClientCall)
    (hc : c ∈ (get_current_session_handler o).2) (he : ∃ e, o c = .error e) :
    strStarts (get_current_session_handler o).1 "[ERROR]" := by
  have hc' : c = .getCurrentSession := by simpa [get_current_session_handler] using hc
  subst hc'
  obtain ⟨e, he⟩ := he
  simp only [get_current_session_handler, he]
  exact strStarts_error_concat _ _ ⟨" Failed to get current session: ", by decide⟩

theorem create_session_safe (now : Int) (o : Oracle) (args : Json) (c : ClientCall)
    (hc : c ∈ (create_session_handler now o args).2) (he : ∃ e, o c = .error e) :
    strStarts (create_session_handler now o args).1 "[ERROR]" := by
  cases hv : validate_session_params args with
  | error e => simp [create_session_handler, hv] at hc
  | ok p =>
      obtain ⟨b, msg⟩ := p
      cases b with
      | true => simp [create_session_handler, hv] at hc
      | false =>
          cases hg1 : args.get "session_type" (.str "focus") with
          | error e => simp [create_session_handler, hv, hg1] at hc
          | ok st =>
          cases hg2 : args.get "title" .null with
          | error e => simp [create_session_handler, hv, hg1, hg2] at hc
          | ok title =>
          cases hg3 : args.get "description" .null with
          | error e => simp [create_session_handler, hv, hg1, hg2, hg3] at hc
          | ok desc =>
          cases hg4 : args.get "duration_minutes" (.num 90) with
          | error e => simp [create_session_handler, hv, hg1, hg2, hg3, hg4] at hc
          | ok dur =>
          cases hg5 : args.get "start_time" .null with
          | error e => simp [create_session_handler, hv, hg1, hg2, hg3, hg4, hg5] at hc
          | ok stt =>
          cases hg6 : args.get "end_time" .null with
          | error e => simp [create_session_handler, hv, hg1, hg2, hg3, hg4, hg5, hg6] at hc
          | ok ett =>
          cases hr : createSessionRequest now st title desc dur stt ett with
          | error e =>
              simp [create_session_handler, hv, hg1, hg2, hg3, hg4, hg5, hg6, hr] at hc
          | ok req =>
              have hc' : c = .createSession req.vars := by
                simpa [create_session_handler, hv, hg1, hg2, hg3, hg4, hg5, hg6, hr]
                  using hc
              subst hc'
              obtain ⟨e, he⟩ := he
              simp only [create_session_handler, hv, hg1, hg2, hg3, hg4, hg5, hg6, hr, he]
              exact strStarts_error_concat _ _ ⟨" Failed to create session: ", by decide⟩

/-- C4: `handle_call_tool` always returns a text result: an unknown tool name
yields the `[ERROR] Unknown tool` text (with no client call), and whenever a
client call in the run's trace failed, the returned text is prefixed with
`[ERROR]`. -/
theorem handle_call_tool_total_and_safe :
    (∀ (now : Int) (o : Oracle) (name : String) (arguments : Json),
      name ∉ toolNames →
      handle_call_tool now o name arguments = ("[ERROR] Unknown tool: " ++ name, []))
    ∧ (∀ (now : Int) (o : Oracle) (name : String) (arguments : Json) (c : ClientCall),
      c ∈ (handle_call_tool now o name arguments).2 →
      (∃ e, o c = .error e) →
      strStarts (handle_call_tool now o name arguments).1 "[ERROR]") := by
  constructor
  · intro now o name arguments h
    simp only [toolNames, List.mem_cons, List.not_mem_nil, or_false, not_or] at h
    obtain ⟨h1, h2, h3, h4, h5, h6, h7⟩ := h
    simp [handle_call_tool, h1, h2, h3, h4, h5, h6, h7]
  · intro now o name arguments c hc he
    by_cases h1 : name = "test_connection"
    · simp only [handle_call_tool, h1, if_true, if_pos rfl] at hc ⊢
      exact test_connection_safe o c hc he
    · by_cases h2 : name = "list_projects"
      · simp only [handle_call_tool, h1, h2, if_false, if_true, if_pos rfl,
          if_neg h1] at hc ⊢
        exact list_projects_safe o _ c hc he
      · by_cases h3 : name = "create_project"
        · simp only [handle_call_tool, h1, h2, h3, if_neg h1, if_neg h2,
            if_pos rfl] at hc ⊢
          exact create_project_safe o _ c hc he
        · by_cases h4 : name = "start_session_timer"
          · simp only [handle_call_tool, if_neg h1, if_neg h2, if_neg h3,
              if_pos h4] at hc ⊢
            exact start_session_timer_safe now o _ c hc he
          · by_cases h5 : name = "stop_session_timer"
            · simp only [handle_call_tool, if_neg h1, if_neg h2, if_neg h3,
                if_neg h4, if_pos h5] at hc ⊢
              exact stop_session_timer_safe o _ c hc he
            · by_cases h6 : name = "get_current_session"
              · simp only [handle_call_tool, if_neg h1, if_neg h2, if_neg h3,
                  if_neg h4, if_neg h5, if_pos h6] at hc ⊢
                exact get_current_session_safe o c hc he
              · by_cases h7 : name = "create_session"
                · simp only [handle_call_tool, if_neg h1, if_neg h2, if_neg h3,
                    if_neg h4, if_neg h5, if_neg h6, if_pos h7] at hc ⊢
                  exact create_session_safe now o _ c hc he
                · simp only [handle_call_tool, if_neg h1, if_neg h2, if_neg h3,
                    if_neg h4, if_neg h5, if_neg h6, if_neg h7] at hc
                  simp at hc

/-- Witness for C4: an unknown tool name, and a failing call through the
`list_projects` tool. -/
theorem handle_call_tool_total_and_safe_witness :
    handle_call_tool 0 (fun _ => .error (.valueError "x")) ("bogus") Json.null
      = ("[ERROR] Unknown tool: " ++ "bogus", [])
    ∧ strStarts (handle_call_tool 0 (fun _ => .error (.valueError "x"))
        ("list_projects") Json.null).1 "[ERROR]" :=
  ⟨handle_call_tool_total_and_safe.1 0 (fun _ => .error (.valueError "x")) ("bogus")
      Json.null (by decide),
   handle_call_tool_total_and_safe.2 0 (fun _ => .error (.valueError "x"))
      ("list_projects") Json.null (.getProjects (Json.num 10))
      (List.mem_singleton.mpr rfl) ⟨.valueError "x", rfl⟩⟩

/-! ### C9 and C10: purity of the request builders -/

theorem jfind_append (l1 l2 : List (String × Json)) (k : String) :
    jfind (l1 ++ l2) k = match jfind l1 k with
      | some v => some v
      | none => jfind l2 k := by
  induction l1 with
  | nil => rfl
  | cons a l ih =>
      obtain ⟨k', v⟩ := a
      by_cases h : k' = k <;> simp [jfind, h, ih]

theorem jfind_if_ne (b : Bool) (k k' : String) (v : Json) (h : ¬(k' = k)) :
    jfind (if b then [(k', v)] else []) k = none := by
  cases b <;> simp [jfind, h]

/-- C9 counterexample to the claim as stated: `start_session_timer` is not a
pure function of its typed arguments — two calls with the same `session_type`
at different wall-clock seconds produce different variable mappings (the
embedded `clientMutationId`). -/
theorem startSessionTimer_time_dependent_cex :
    startSessionTimerRequest (Json.str "FOCUS") 0
      ≠ startSessionTimerRequest (Json.str "FOCUS") 1 := by
  intro h
  have h2 := congrArg (fun r => r.vars.pyStr) h
  exact absurd h2 (by decide)

/-- C9 (amended): purity of the outbound request builders with respect to
the wall clock. `create_project` is a pure function of its typed arguments —
the document is fixed, `name` is always sent, and each optional argument
enters the input object exactly when it is truthy; `stop_session_timer`
always sends the empty input object. Two builders read the clock:
`start_session_timer` embeds the current epoch second into
`clientMutationId`, and `create_session` uses `datetime.now()` exactly when
neither bound is supplied — with at least one truthy `start_time`/`end_time`
its request is independent of the current time, while with neither bound two
calls with identical arguments at different times build different variable
mappings. -/
theorem client_request_purity :
    (∀ (st : Json) (t : Int),
      (startSessionTimerRequest st t).doc = startSessionTimerDoc
      ∧ (startSessionTimerRequest st t).vars
        = Json.obj [("input", Json.obj [("clientMutationId",
            Json.str ("start_timer_" ++ toString t))])])
    ∧ (∀ name ci co em tb tbi : Json,
        (createProjectRequest name ci co em tb tbi).doc = createProjectDoc
        ∧ (createProjectRequest name ci co em tb tbi).vars
            = Json.obj [("input", Json.obj (createProjectInput name ci co em tb tbi))]
        ∧ jfind (createProjectInput name ci co em tb tbi) "name" = some name
        ∧ jfind (createProjectInput name ci co em tb tbi) "clientId"
            = (if ci.truthy then some ci else none)
        ∧ jfind (createProjectInput name ci co em tb tbi) "color"
            = (if co.truthy then some co else none)
        ∧ jfind (createProjectInput name ci co em tb tbi) "emoji"
            = (if em.truthy then some em else none)
        ∧ jfind (createProjectInput name ci co em tb tbi) "timeBudget"
            = (if tb.truthy then some tb else none)
        ∧ jfind (createProjectInput name ci co em tb tbi) "timeBudgetInterval"
            = (if tbi.truthy then some tbi else none))
    ∧ stopSessionTimerRequest.vars = Json.obj [("input", Json.obj [])]
    ∧ (∀ (now1 now2 : Int) (sty ti de du s e : Json),
        s.truthy = true ∨ e.truthy = true →
        createSessionRequest now1 sty ti de du s e
          = createSessionRequest now2 sty ti de du s e)
    ∧ createSessionRequest 0 Json.null (Json.str "t") Json.null
          (Json.num 90) Json.null Json.null
        ≠ createSessionRequest 1000000 Json.null (Json.str "t") Json.null
          (Json.num 90) Json.null Json.null := by
  refine ⟨fun st t => ⟨rfl, rfl⟩, ?_, rfl, ?_, ?_⟩
  · intro name ci co em tb tbi
    refine ⟨rfl, rfl, ?_, ?_, ?_, ?_, ?_, ?_⟩
    · simp [createProjectInput, jfind_append, jfind]
    · cases hci : ci.truthy <;>
        simp [createProjectInput, jfind_append, jfind, hci, jfind_if_ne]
    · cases hco : co.truthy <;>
        simp [createProjectInput, jfind_append, jfind, hco, jfind_if_ne]
    · cases hem : em.truthy <;>
        simp [createProjectInput, jfind_append, jfind, hem, jfind_if_ne]
    · cases htb : tb.truthy <;>
        simp [createProjectInput, jfind_append, jfind, htb, jfind_if_ne]
    · cases htbi : tbi.truthy <;>
        simp [createProjectInput, jfind_append, jfind, htbi, jfind_if_ne]
  · intro now1 now2 sty ti de du s e h
    unfold createSessionRequest resolveWindow
    rcases h with h | h
    · cases he : e.truthy <;> simp [h, he]
    · cases hs : s.truthy <;> simp [h, hs]
  · intro hEq
    have h2 := congrArg (fun r => (match r with
      | Except.ok g => GqlRequest.vars g
      | Except.error _ => Json.null).pyStr) hEq
    exact absurd h2 (by decide)

/-- Witness for the clock-independence clause: with a start bound supplied,
the create-session request built at two different clock readings is the
same. -/
theorem client_request_purity_witness :
    createSessionRequest 5 Json.null (Json.str "t") Json.null (Json.num 90)
        (Json.str "2025-07-21 14:00") Json.null
      = createSessionRequest 0 Json.null (Json.str "t") Json.null (Json.num 90)
        (Json.str "2025-07-21 14:00") Json.null :=
  client_request_purity.2.2.2.1 5 0 Json.null (Json.str "t") Json.null
    (Json.num 90) (Json.str "2025-07-21 14:00") Json.null (Or.inl (by decide))

/-- C10: the `session_type` argument of `start_session_timer` has no effect
on the outbound request: for any two values the built requests are identical,
the document is the fixed `StartSessionTimer` mutation, and the variables are
exactly `input.clientMutationId` — no session-type value is transmitted. -/
theorem startSessionTimer_ignores_session_type (st1 st2 : Json) (t : Int) :
    startSessionTimerRequest st1 t = startSessionTimerRequest st2 t
    ∧ (startSessionTimerRequest st1 t).doc = startSessionTimerDoc
    ∧ (startSessionTimerRequest st1 t).vars
      = Json.obj [("input", Json.obj [("clientMutationId",
          Json.str ("start_timer_" ++ toString t))])] := ⟨rfl, rfl, rfl⟩
